import Mathlib

/-!
# RolLOGO roll-off roof driver (indi-rollogo): embedding of the motion controller

Shallow embedding of `rollogo.cpp` / `rollogo.h`.  The driver object, the part of
the INDI dome base class the driver reads and writes, the two relay coils of the
controller and a trace of the bus traffic are the fields of one record; every
member function becomes a function from a record to a record (and a return value).

The Modbus link is an input: `Bus.readAt n` is what the n-th
`modbus_read_input_bits` transaction returns and `Bus.writeAt n addr v` is the
return code of the n-th `modbus_write_bits` transaction when it carries
`(addr, v)`.  Both are arbitrary, so every pattern of bus faults is covered.
-/

namespace RolLOGO

/-! ## INDI enumerations used by the driver -/

/-- INDI property state. -/
inductive IPState where
  | IPS_IDLE
  | IPS_OK
  | IPS_BUSY
  | IPS_ALERT
  deriving DecidableEq, Repr

/-- INDI switch state. -/
inductive ISState where
  | ISS_OFF
  | ISS_ON
  deriving DecidableEq, Repr

/-- Direction of a dome motion: `DOME_CW` opens the roof, `DOME_CCW` closes it. -/
inductive DomeDirection where
  | DOME_CW
  | DOME_CCW
  deriving DecidableEq, Repr

/-- Operation of a dome motion request. -/
inductive DomeMotionCommand where
  | MOTION_START
  | MOTION_STOP
  deriving DecidableEq, Repr

/-- Dome states handed to `setDomeState`. -/
inductive DomeState where
  | DOME_UNKNOWN
  | DOME_ERROR
  | DOME_IDLE
  | DOME_MOVING
  | DOME_PARKED
  | DOME_UNPARKED
  deriving DecidableEq, Repr

/-- The log lines the modelled functions emit, one constructor per call site. -/
inductive LogMsg where
  | readError            -- checkRoofStatus: "ModBus read error"
  | writeError           -- setFlag: "ModBus write error"
  | clearError           -- clearFlags: "ModBus write error"
  | roofIsOpen           -- TimerHit: "Roof is open"
  | roofIsClosed         -- TimerHit: "Roof is closed"
  | timeoutOpening       -- TimerHit: "... timeout has expired while opening!"
  | timeoutClosing       -- TimerHit: "... timeout has expired while closing!"
  | setTimeout           -- Move: "Please set motion timeout ..."
  | alreadyOpened        -- Move: "Roof is already fully opened"
  | openingInitiated     -- Move: "Roof opening initiated ..."
  | openingFailed        -- Move: "Roof opening failed"
  | alreadyClosed        -- Move: "Roof is already fully closed"
  | mountLocking         -- Move: "Cannot close dome when mount is locking ..."
  | closingInitiated     -- Move: "Roof closing initiated ..."
  | closingFailed        -- Move: "Roof closing failed"
  | closedStationary     -- Abort: "Roof appears to be closed and stationary ..."
  | openStationary       -- Abort: "Roof appears to be open and stationary ..."
  | partlyStationary    -- Abort: "Roof appears to be partially open and stationary ..."
  | abortOpening         -- Abort: "Abort action requested on opening roof"
  | abortClosing         -- Abort: "Abort action requested on closing roof"
  deriving DecidableEq, Repr

/-! ## Register map (the `#define`s of rollogo.cpp) -/

def SWITCH_ADDRESS_START : Int := 0
def SWITCH_ADDRESS_COUNT : Int := 4
def SWITCH_OPEN_SOUTH : Nat := 0
def SWITCH_CLOSED_SOUTH : Nat := 1
def SWITCH_OPEN_NORTH : Nat := 3
def SWITCH_CLOSED_NORTH : Nat := 2
def RELAY_ROOF_OPEN : Int := 8256
def RELAY_ROOF_CLOSE : Int := 8257

/-! ## The bus -/

/-- Outcome of one `modbus_read_input_bits(ctx, 0, 4, bits)`: the return code and
the four bytes of the buffer afterwards (`true` for a non-zero byte). -/
structure ReadResult where
  rc : Int
  bit0 : Bool
  bit1 : Bool
  bit2 : Bool
  bit3 : Bool
  deriving DecidableEq, Repr

/-- The byte `bits[i]` of a read, as a truth value. -/
def ReadResult.bits (r : ReadResult) (i : Nat) : Bool :=
  match i with
  | 0 => r.bit0
  | 1 => r.bit1
  | 2 => r.bit2
  | _ => r.bit3

/-- Behaviour of the Modbus link: the result of the n-th read transaction and the
return code of the n-th write transaction as a function of address and value. -/
structure Bus where
  readAt : Nat → ReadResult
  writeAt : Nat → Int → Int → Int

/-- One `modbus_write_bits` transaction as it went over the wire. -/
structure CoilWrite where
  addr : Int
  bitval : Int
  rc : Int
  deriving DecidableEq, Repr

/-! ## Driver state -/

/-- The driver object together with the base-class fields it touches, the relay
coils of the controller and the trace of bus writes and log lines. -/
structure Dev where
  -- rollogo.h
  TimeoutValue : Int                 -- TimeoutP[0].value
  MotionTimeFrame : Int
  MotionTimeLeft : Int
  LoopID : Option Nat                -- delay (ms) of the pending timer, if any
  RoofStatusL_North_OPENED : IPState
  RoofStatusL_North_CLOSED : IPState
  RoofStatusLP_North_s : IPState
  RoofStatusL_South_OPENED : IPState
  RoofStatusL_South_CLOSED : IPState
  RoofStatusLP_South_s : IPState
  is_open_North : ISState
  is_closed_North : ISState
  is_open_South : ISState
  is_closed_South : ISState
  -- INDI::Dome
  connected : Bool                   -- isConnected()
  locked : Bool                      -- INDI::Dome::isLocked()
  DomeMotionSP_s : IPState
  DomeMotionS_CW : ISState
  DomeMotionS_CCW : ISState
  ParkSP_s : IPState
  ParkS_PARK : ISState
  ParkS_UNPARK : ISState
  IsParked : Bool
  m_DomeState : DomeState
  -- controller and link
  coil8256 : Bool
  coil8257 : Bool
  nRead : Nat
  nWrite : Nat
  writes : List CoilWrite
  msgs : List LogMsg
  deriving DecidableEq, Repr

/-- Append a log line. -/
def Dev.log (s : Dev) (m : LogMsg) : Dev :=
  { s with msgs := s.msgs ++ [m] }

/-! ## Base-class collaborators -/

/-- Modelled from the spec: `INDI::Dome::setDomeState` is base-class code outside
this repository.  The spec calls `DOME_IDLE` "an idle device state" and
`DOME_ERROR` "an error state": going idle ends a motion that is marked busy
(motion switches reset, motion property idle), the error state raises the alert
on the park property, and the value is recorded. -/
def setDomeState (s : Dev) (value : DomeState) : Dev :=
  match value with
  | .DOME_IDLE =>
    if s.DomeMotionSP_s = .IPS_BUSY then
      { s with DomeMotionS_CW := .ISS_OFF, DomeMotionS_CCW := .ISS_OFF,
               DomeMotionSP_s := .IPS_IDLE, m_DomeState := .DOME_IDLE }
    else
      { s with m_DomeState := .DOME_IDLE }
  | .DOME_ERROR =>
    { s with ParkSP_s := .IPS_ALERT, m_DomeState := .DOME_ERROR }
  | .DOME_PARKED =>
    let s1 : Dev :=
      if s.DomeMotionSP_s = .IPS_BUSY then
        { s with DomeMotionS_CW := .ISS_OFF, DomeMotionS_CCW := .ISS_OFF,
                 DomeMotionSP_s := .IPS_IDLE }
      else s
    { s1 with ParkS_PARK := .ISS_ON, ParkS_UNPARK := .ISS_OFF, ParkSP_s := .IPS_OK,
              IsParked := true, m_DomeState := .DOME_PARKED }
  | .DOME_UNPARKED =>
    { s with ParkS_PARK := .ISS_OFF, ParkS_UNPARK := .ISS_ON, ParkSP_s := .IPS_OK,
             IsParked := false, m_DomeState := .DOME_UNPARKED }
  | v => { s with m_DomeState := v }

/-- Modelled from the spec: `INDI::Dome::SetParked` is base-class code outside this
repository.  The spec says "mark parked" / "mark unparked": the parked flag is
recorded, the dome goes idle and then to the parked or unparked state. -/
def SetParked (s : Dev) (isparked : Bool) : Dev :=
  let s1 := setDomeState { s with IsParked := isparked } .DOME_IDLE
  if isparked then setDomeState s1 .DOME_PARKED else setDomeState s1 .DOME_UNPARKED

/-! ## rollogo.cpp -/

/-- The hardware effect of an acknowledged write of byte `bitval` to `addr`. -/
def Dev.storeCoil (s : Dev) (addr bitval : Int) : Dev :=
  if addr = RELAY_ROOF_OPEN then { s with coil8256 := decide (bitval % 256 ≠ 0) }
  else if addr = RELAY_ROOF_CLOSE then { s with coil8257 := decide (bitval % 256 ≠ 0) }
  else s

/-- `RolLOGO::setFlag`: one single-coil write; `false` unless the bus returns 1.
The driver sees only the return code. That a write the bus does not acknowledge
leaves the coil as it was is an assumption about the controller, not something
the code knows. -/
def setFlag (bus : Bus) (s : Dev) (addr bitval : Int) : Dev × Bool :=
  let rc := bus.writeAt s.nWrite addr bitval
  let s1 : Dev := { s with nWrite := s.nWrite + 1,
                           writes := s.writes ++ [⟨addr, bitval, rc⟩] }
  if rc ≠ 1 then
    (s1.log .writeError, false)
  else
    (s1.storeCoil addr bitval, true)

/-- `RolLOGO::clearFlags`: `setFlag(RELAY_ROOF_OPEN, 0) && setFlag(RELAY_ROOF_CLOSE, 0)`
with the short-circuit of `&&`. -/
def clearFlags (bus : Bus) (s : Dev) : Dev × Bool :=
  let r1 := setFlag bus s RELAY_ROOF_OPEN 0
  if r1.2 then
    let r2 := setFlag bus r1.1 RELAY_ROOF_CLOSE 0
    if r2.2 then (r2.1, true) else (r2.1.log .clearError, false)
  else
    (r1.1.log .clearError, false)

/-- ISState of an inverted input: `bits[i] ? ISS_OFF : ISS_ON`. -/
def invert (b : Bool) : ISState :=
  if b then .ISS_OFF else .ISS_ON

/-- `RolLOGO::checkRoofStatus`. -/
def checkRoofStatus (bus : Bus) (s : Dev) : Dev :=
  let r := bus.readAt s.nRead
  let s0 : Dev := { s with nRead := s.nRead + 1 }
  if r.rc = SWITCH_ADDRESS_COUNT then
    let s1 : Dev := { s0 with RoofStatusL_North_CLOSED := .IPS_IDLE,
                              RoofStatusL_North_OPENED := .IPS_IDLE,
                              RoofStatusL_South_CLOSED := .IPS_IDLE,
                              RoofStatusL_South_OPENED := .IPS_IDLE,
                              RoofStatusLP_North_s := .IPS_IDLE,
                              RoofStatusLP_South_s := .IPS_IDLE }
    let s2 : Dev := { s1 with is_open_North := invert (r.bits SWITCH_OPEN_NORTH) }
    let s3 : Dev :=
      if s2.is_open_North = .ISS_ON then
        { s2 with RoofStatusL_North_OPENED := .IPS_OK, RoofStatusLP_North_s := .IPS_OK }
      else
        let s2c : Dev := { s2 with is_closed_North := invert (r.bits SWITCH_CLOSED_NORTH) }
        if s2c.is_closed_North = .ISS_ON then
          { s2c with RoofStatusL_North_CLOSED := .IPS_OK, RoofStatusLP_North_s := .IPS_OK }
        else
          { s2c with RoofStatusL_North_CLOSED := .IPS_BUSY,
                     RoofStatusL_North_OPENED := .IPS_BUSY,
                     RoofStatusLP_North_s := .IPS_BUSY }
    let s4 : Dev := { s3 with is_open_South := invert (r.bits SWITCH_OPEN_SOUTH) }
    if s4.is_open_South = .ISS_ON then
      { s4 with RoofStatusL_South_OPENED := .IPS_OK, RoofStatusLP_South_s := .IPS_OK }
    else
      let s4c : Dev := { s4 with is_closed_South := invert (r.bits SWITCH_CLOSED_SOUTH) }
      if s4c.is_closed_South = .ISS_ON then
        { s4c with RoofStatusL_South_CLOSED := .IPS_OK, RoofStatusLP_South_s := .IPS_OK }
      else
        { s4c with RoofStatusL_South_CLOSED := .IPS_BUSY,
                   RoofStatusL_South_OPENED := .IPS_BUSY,
                   RoofStatusLP_South_s := .IPS_BUSY }
  else
    ({ s0 with RoofStatusLP_North_s := .IPS_ALERT,
               RoofStatusLP_South_s := .IPS_ALERT } : Dev).log .readError

/-- `RolLOGO::ISNewNumber`, the branch for the `TIMEOUT` property of this device,
on a value that is already integral and within the range of `int` (`round` and
the cast are then the identity).  No range check against the 0..150 of the
property is made. -/
def ISNewNumber (s : Dev) (value : Int) : Dev :=
  { s with TimeoutValue := value }

/-- `RolLOGO::Abort`. -/
def Abort (bus : Bus) (s : Dev) : Dev × Bool :=
  let s1 := checkRoofStatus bus s
  let opened : Bool := s1.is_open_North = .ISS_ON && s1.is_open_South = .ISS_ON
  let closed : Bool := s1.is_closed_North = .ISS_ON && s1.is_closed_South = .ISS_ON
  if closed && s1.DomeMotionSP_s ≠ .IPS_BUSY then
    (s1.log .closedStationary, true)
  else if opened && s1.DomeMotionSP_s ≠ .IPS_BUSY then
    (s1.log .openStationary, true)
  else
    let s2 : Dev :=
      if s1.DomeMotionSP_s ≠ .IPS_BUSY then
        s1.log .partlyStationary
      else
        let s1a : Dev :=
          if s1.DomeMotionS_CW = .ISS_ON then s1.log .abortOpening
          else if s1.DomeMotionS_CCW = .ISS_ON then s1.log .abortClosing
          else s1
        let c := clearFlags bus s1a
        if c.2 then setDomeState c.1 .DOME_IDLE else setDomeState c.1 .DOME_ERROR
    let s3 : Dev :=
      if !opened && !closed then
        { s2 with ParkS_PARK := .ISS_OFF, ParkS_UNPARK := .ISS_OFF, ParkSP_s := .IPS_IDLE }
      else s2
    (s3, true)

/-- `RolLOGO::Move`. -/
def Move (bus : Bus) (s : Dev) (dir : DomeDirection) (operation : DomeMotionCommand) :
    Dev × IPState :=
  let s0 : Dev := { s with MotionTimeFrame := s.TimeoutValue }
  if s0.MotionTimeFrame = 0 then
    (s0.log .setTimeout, .IPS_ALERT)
  else
    let s1 := checkRoofStatus bus s0
    if operation = .MOTION_START ∧ s1.DomeMotionSP_s ≠ .IPS_BUSY then
      let started (t : Dev) : Dev × IPState :=
        ({ t with MotionTimeLeft := t.MotionTimeFrame, LoopID := some 1000 }, .IPS_BUSY)
      match dir with
      | .DOME_CW =>
        if s1.is_open_North = .ISS_ON ∧ s1.is_open_South = .ISS_ON then
          (s1.log .alreadyOpened, .IPS_ALERT)
        else
          let w := setFlag bus s1 RELAY_ROOF_OPEN 1
          if w.2 then started (w.1.log .openingInitiated)
          else (w.1.log .openingFailed, .IPS_ALERT)
      | .DOME_CCW =>
        if s1.is_closed_North = .ISS_ON ∧ s1.is_closed_South = .ISS_ON then
          (s1.log .alreadyClosed, .IPS_ALERT)
        else if s1.locked then
          (s1.log .mountLocking, .IPS_ALERT)
        else
          let w := setFlag bus s1 RELAY_ROOF_CLOSE 1
          if w.2 then started (w.1.log .closingInitiated)
          else (w.1.log .closingFailed, .IPS_ALERT)
    else
      let a := Abort bus s1
      (a.1, if a.2 then .IPS_IDLE else .IPS_ALERT)

/-- `RolLOGO::TimerHit`. -/
def TimerHit (bus : Bus) (s : Dev) : Dev :=
  if !s.connected then s
  else
    let s1 := checkRoofStatus bus s
    let r : Dev × Nat :=
      if s1.DomeMotionSP_s = .IPS_BUSY then
        if s1.DomeMotionS_CW = .ISS_ON then
          if s1.is_open_North = .ISS_ON ∧ s1.is_open_South = .ISS_ON then
            let s2 : Dev := { s1.log .roofIsOpen with MotionTimeLeft := 0 }
            let s3 := (clearFlags bus s2).1
            let s4 := SetParked s3 false
            ({ s4 with DomeMotionSP_s := .IPS_OK }, 1000 * 300)
          else if s1.MotionTimeLeft ≤ 0 then
            (s1.log .timeoutOpening, 1000 * 300)
          else
            ({ s1 with MotionTimeLeft := s1.MotionTimeLeft - 1 }, 1000)
        else if s1.DomeMotionS_CCW = .ISS_ON then
          if s1.is_closed_North = .ISS_ON ∧ s1.is_closed_South = .ISS_ON then
            let s2 : Dev := { s1.log .roofIsClosed with MotionTimeLeft := 0 }
            let s3 := (clearFlags bus s2).1
            let s4 := SetParked s3 true
            ({ s4 with DomeMotionSP_s := .IPS_OK }, 1000 * 300)
          else if s1.MotionTimeLeft ≤ 0 then
            (s1.log .timeoutClosing, 1000 * 300)
          else
            ({ s1 with MotionTimeLeft := s1.MotionTimeLeft - 1 }, 1000)
        else
          (setDomeState (clearFlags bus s1).1 .DOME_IDLE, 1000 * 300)
      else
        (s1, 1000 * 300)
    { r.1 with LoopID := some r.2 }

/-! ## Panel status as reported on the lights -/

/-- Status of one roof panel. -/
inductive PanelStatus where
  | OPEN
  | CLOSED
  | INDETERMINATE
  | FAULT
  deriving DecidableEq, Repr

/-- Reading of one light vector (`opened` element, `closed` element, vector
state): alert is a fault, an OK element names the position, otherwise the panel
is in between. -/
def lightStatus (opened closed vec : IPState) : PanelStatus :=
  if vec = .IPS_ALERT then .FAULT
  else if opened = .IPS_OK then .OPEN
  else if closed = .IPS_OK then .CLOSED
  else .INDETERMINATE

/-- North panel status shown by the driver. -/
def panelNorth (s : Dev) : PanelStatus :=
  lightStatus s.RoofStatusL_North_OPENED s.RoofStatusL_North_CLOSED s.RoofStatusLP_North_s

/-- South panel status shown by the driver. -/
def panelSouth (s : Dev) : PanelStatus :=
  lightStatus s.RoofStatusL_South_OPENED s.RoofStatusL_South_CLOSED s.RoofStatusLP_South_s

/-- Specification of one panel from its two active-low sensor bits: OPEN when the
open-sensor bit is 0, otherwise CLOSED when the closed-sensor bit is 0, otherwise
INDETERMINATE. -/
def specPanel (openBit closedBit : Bool) : PanelStatus :=
  if openBit = false then .OPEN
  else if closedBit = false then .CLOSED
  else .INDETERMINATE

/-- Specification of `readPanelStatus`: a full read of 4 bits gives north from
inputs 3 (open) and 2 (closed) and south from inputs 0 (open) and 1 (closed);
any other read gives FAULT for both panels. -/
def specReadPanelStatus (r : ReadResult) : PanelStatus × PanelStatus :=
  if r.rc = 4 then (specPanel r.bit3 r.bit2, specPanel r.bit0 r.bit1)
  else (.FAULT, .FAULT)

/-! ## Vocabulary of the claims -/

/-- The bus writes a call issued: the trace after the call without the trace
before it. -/
def newWrites (before after : Dev) : List CoilWrite :=
  after.writes.drop before.writes.length

/-- The relay coil that drives the roof in direction `dir`. -/
def relayOf (dir : DomeDirection) : Int :=
  match dir with
  | .DOME_CW => RELAY_ROOF_OPEN
  | .DOME_CCW => RELAY_ROOF_CLOSE

/-- Both panels are flagged at the end position of direction `dir`. -/
def atTarget (s : Dev) (dir : DomeDirection) : Prop :=
  match dir with
  | .DOME_CW => s.is_open_North = .ISS_ON ∧ s.is_open_South = .ISS_ON
  | .DOME_CCW => s.is_closed_North = .ISS_ON ∧ s.is_closed_South = .ISS_ON

instance (s : Dev) (dir : DomeDirection) : Decidable (atTarget s dir) := by
  cases dir <;> unfold atTarget <;> exact inferInstance

/-- The driver as constructed (rollogo.h initialisers, `initProperties`), connected
to a controller whose coils are clear, with the given value of the timeout
property. -/
def initDev (timeout : Int) : Dev :=
  { TimeoutValue := timeout, MotionTimeFrame := -1, MotionTimeLeft := 0, LoopID := none,
    RoofStatusL_North_OPENED := .IPS_IDLE, RoofStatusL_North_CLOSED := .IPS_IDLE,
    RoofStatusLP_North_s := .IPS_BUSY,
    RoofStatusL_South_OPENED := .IPS_IDLE, RoofStatusL_South_CLOSED := .IPS_IDLE,
    RoofStatusLP_South_s := .IPS_BUSY,
    is_open_North := .ISS_OFF, is_closed_North := .ISS_OFF,
    is_open_South := .ISS_OFF, is_closed_South := .ISS_OFF,
    connected := true, locked := false,
    DomeMotionSP_s := .IPS_IDLE, DomeMotionS_CW := .ISS_OFF, DomeMotionS_CCW := .ISS_OFF,
    ParkSP_s := .IPS_IDLE, ParkS_PARK := .ISS_OFF, ParkS_UNPARK := .ISS_OFF,
    IsParked := false, m_DomeState := .DOME_UNKNOWN,
    coil8256 := false, coil8257 := false, nRead := 0, nWrite := 0,
    writes := [], msgs := [] }

/-- A link on which every read returns `r` and every write returns `wrc`. -/
def constBus (r : ReadResult) (wrc : Int) : Bus :=
  { readAt := fun _ => r, writeAt := fun _ _ _ => wrc }

/-- A failed read: return code -1, buffer still zeroed. -/
def readFault : ReadResult := ⟨-1, false, false, false, false⟩

/-- A full read with both panels on their open switches (inputs 3 and 0 low). -/
def readOpen : ReadResult := ⟨4, false, true, true, false⟩

/-- A full read with both panels on their closed switches (inputs 2 and 1 low). -/
def readClosed : ReadResult := ⟨4, true, false, false, true⟩

/-- A full read with no switch reached (all inputs high). -/
def readBetween : ReadResult := ⟨4, true, true, true, true⟩

/-- The transactions one run of `clearFlags` puts on the wire when it starts as
write number `n`: 0 to coil 8256 and, only if that was acknowledged, 0 to coil
8257. -/
def clearWrites (bus : Bus) (n : Nat) : List CoilWrite :=
  ⟨RELAY_ROOF_OPEN, 0, bus.writeAt n RELAY_ROOF_OPEN 0⟩ ::
    (if bus.writeAt n RELAY_ROOF_OPEN 0 = 1 then
      [⟨RELAY_ROOF_CLOSE, 0, bus.writeAt (n + 1) RELAY_ROOF_CLOSE 0⟩]
     else [])

/-! ## Sequences of requests -/

/-- Modelled from the spec: the base-class wrapper `INDI::Dome::Move` through
which a motion request reaches the driver is outside this repository.  On
acceptance "RoofState" becomes OPENING / CLOSING: the motion property takes the
answer of `Move` and, when that answer is busy or ok, the motion switches are
reset and, for a start, the switch of the requested direction is turned on. -/
def Dome_Move (bus : Bus) (s : Dev) (dir : DomeDirection) (operation : DomeMotionCommand) :
    Dev :=
  let r := Move bus s dir operation
  let s1 : Dev := { r.1 with DomeMotionSP_s := r.2 }
  if r.2 = .IPS_BUSY ∨ r.2 = .IPS_OK then
    { s1 with
        m_DomeState := if operation = .MOTION_START then .DOME_MOVING else .DOME_IDLE,
        DomeMotionS_CW :=
          if operation = .MOTION_START ∧ dir = .DOME_CW then .ISS_ON else .ISS_OFF,
        DomeMotionS_CCW :=
          if operation = .MOTION_START ∧ dir = .DOME_CCW then .ISS_ON else .ISS_OFF }
  else s1

/-- A request to the motion controller. -/
inductive Call where
  | move (dir : DomeDirection) (operation : DomeMotionCommand)
  | abort
  deriving DecidableEq, Repr

/-- One request: a motion request through the base-class wrapper, or an abort. -/
def step (bus : Bus) (s : Dev) : Call → Dev
  | .move dir operation => Dome_Move bus s dir operation
  | .abort => (Abort bus s).1

/-- A sequence of requests, one after the other on the same link. -/
def run (bus : Bus) (s : Dev) (calls : List Call) : Dev :=
  calls.foldl (step bus) s

/-- A link on which the roof reads closed at the first poll and in between
afterwards, and on which the second write transaction is not acknowledged. -/
def busSecondWriteLost : Bus :=
  { readAt := fun n => if n = 0 then readClosed else readBetween,
    writeAt := fun n _ _ => if n = 1 then -1 else 1 }

/-- Coils never both asserted, and clear whenever a timeout is configured and no
motion is marked busy. -/
def coilInv (s : Dev) : Prop :=
  ¬ (s.coil8256 = true ∧ s.coil8257 = true) ∧
  (s.TimeoutValue ≠ 0 → s.DomeMotionSP_s ≠ .IPS_BUSY →
    s.coil8256 = false ∧ s.coil8257 = false)

/-! ## Vocabulary of the tick -/

/-- The direction `TimerHit` and `Abort` take a busy motion to have: open when the
open switch of the motion property is on, else close when the close switch is on. -/
def motionDir (s : Dev) : Option DomeDirection :=
  if s.DomeMotionS_CW = .ISS_ON then some .DOME_CW
  else if s.DomeMotionS_CCW = .ISS_ON then some .DOME_CCW
  else none

/-- The timeout warning of `TimerHit` for a motion in direction `dir`. -/
def timeoutMsg (dir : DomeDirection) : LogMsg :=
  match dir with
  | .DOME_CW => .timeoutOpening
  | .DOME_CCW => .timeoutClosing

/-- The success line of `TimerHit` for a motion in direction `dir`. -/
def doneMsg (dir : DomeDirection) : LogMsg :=
  match dir with
  | .DOME_CW => .roofIsOpen
  | .DOME_CCW => .roofIsClosed

/-- The park state `TimerHit` sets when a motion in direction `dir` succeeds:
unparked after opening, parked after closing. -/
def parkedOf (dir : DomeDirection) : Bool :=
  match dir with
  | .DOME_CW => false
  | .DOME_CCW => true

/-- The log lines a call emitted: the log after the call without the log before. -/
def newMsgs (before after : Dev) : List LogMsg :=
  after.msgs.drop before.msgs.length

/-- Number of timeout warnings in a list of log lines. -/
def timeoutWarnings (l : List LogMsg) : Nat :=
  l.count .timeoutOpening + l.count .timeoutClosing

/-- An opening in progress as `Move` and the base class leave it: motion property
busy, open switch on, coil 8256 asserted, countdown at `left`. -/
def openingDev (timeout left : Int) : Dev :=
  { initDev timeout with DomeMotionSP_s := .IPS_BUSY, DomeMotionS_CW := .ISS_ON,
                         coil8256 := true, MotionTimeFrame := timeout,
                         MotionTimeLeft := left, m_DomeState := .DOME_MOVING }

/-- A full read that shows both panels closed: inputs 3 and 0 (open sensors) high,
inputs 2 and 1 (closed sensors) low. -/
def readsClosed (r : ReadResult) : Prop :=
  r.rc = 4 ∧ r.bit3 = true ∧ r.bit0 = true ∧ r.bit2 = false ∧ r.bit1 = false

/-- A full read that shows both panels open: inputs 3 and 0 (open sensors) low. -/
def readsOpen (r : ReadResult) : Prop :=
  r.rc = 4 ∧ r.bit3 = false ∧ r.bit0 = false

instance (r : ReadResult) : Decidable (readsClosed r) := by
  unfold readsClosed; exact inferInstance

instance (r : ReadResult) : Decidable (readsOpen r) := by
  unfold readsOpen; exact inferInstance

/-! ## What a poll leaves behind, as a function -/

/-- The six lights and the four sensor flags of the driver. -/
structure Sense where
  lNO : IPState    -- RoofStatusL_North[ROOF_STATUS_OPENED].s
  lNC : IPState    -- RoofStatusL_North[ROOF_STATUS_CLOSED].s
  lNP : IPState    -- RoofStatusLP_North.s
  lSO : IPState
  lSC : IPState
  lSP : IPState
  oN : ISState     -- is_open_North
  cN : ISState     -- is_closed_North
  oS : ISState     -- is_open_South
  cS : ISState     -- is_closed_South
  deriving DecidableEq, Repr

/-- Lights and sensor flags of a driver state. -/
def senseOf (s : Dev) : Sense :=
  { lNO := s.RoofStatusL_North_OPENED, lNC := s.RoofStatusL_North_CLOSED,
    lNP := s.RoofStatusLP_North_s,
    lSO := s.RoofStatusL_South_OPENED, lSC := s.RoofStatusL_South_CLOSED,
    lSP := s.RoofStatusLP_South_s,
    oN := s.is_open_North, cN := s.is_closed_North,
    oS := s.is_open_South, cS := s.is_closed_South }

/-- The effect of `checkRoofStatus` on lights and flags, read off its code as a
function of the read result and of the lights and flags before (proved to be that
effect in `checkRoofStatus_senseOf`). -/
def pollSense (r : ReadResult) (x : Sense) : Sense :=
  if r.rc = 4 then
    { lNO := if r.bit3 then (if r.bit2 then .IPS_BUSY else .IPS_IDLE) else .IPS_OK,
      lNC := if r.bit3 then (if r.bit2 then .IPS_BUSY else .IPS_OK) else .IPS_IDLE,
      lNP := if r.bit3 then (if r.bit2 then .IPS_BUSY else .IPS_OK) else .IPS_OK,
      lSO := if r.bit0 then (if r.bit1 then .IPS_BUSY else .IPS_IDLE) else .IPS_OK,
      lSC := if r.bit0 then (if r.bit1 then .IPS_BUSY else .IPS_OK) else .IPS_IDLE,
      lSP := if r.bit0 then (if r.bit1 then .IPS_BUSY else .IPS_OK) else .IPS_OK,
      oN := invert r.bit3,
      cN := if r.bit3 then invert r.bit2 else x.cN,
      oS := invert r.bit0,
      cS := if r.bit0 then invert r.bit1 else x.cS }
  else
    { x with lNP := .IPS_ALERT, lSP := .IPS_ALERT }

/-- What the idempotence of `Abort` is about: panel status, lights and sensor
flags, motion state (motion property, direction switches, countdown) and coil
values. -/
structure Observed where
  panelN : PanelStatus
  panelS : PanelStatus
  sense : Sense
  DomeMotionSP_s : IPState
  DomeMotionS_CW : ISState
  DomeMotionS_CCW : ISState
  MotionTimeLeft : Int
  coil8256 : Bool
  coil8257 : Bool
  deriving DecidableEq, Repr

/-- The observed part of a driver state. -/
def observe (s : Dev) : Observed :=
  { panelN := panelNorth s, panelS := panelSouth s, sense := senseOf s,
    DomeMotionSP_s := s.DomeMotionSP_s, DomeMotionS_CW := s.DomeMotionS_CW,
    DomeMotionS_CCW := s.DomeMotionS_CCW, MotionTimeLeft := s.MotionTimeLeft,
    coil8256 := s.coil8256, coil8257 := s.coil8257 }

/-- A fault-free link on which the roof reads closed at the first poll and open at
every later one (the roof was opened by hand in between). -/
def busClosedThenOpen : Bus :=
  { readAt := fun n => if n = 0 then readClosed else readOpen,
    writeAt := fun _ _ _ => 1 }

/-- An opening in progress whose sensor flags, remembered from the last successful
poll, show both panels open. -/
def openingFlaggedOpen : Dev :=
  { openingDev 60 30 with is_open_North := .ISS_ON, is_open_South := .ISS_ON }

/-- The idle driver with a stray relay flag: no motion marked busy, yet coil 8256
is asserted in the controller. -/
def idleStrayCoil : Dev :=
  { initDev 60 with coil8256 := true }

/-! ## What a poll shows, on the read bits -/

/-- The read shows both panels at the end position of direction `dir`: a full read
with both open sensors low for open, a full read with both open sensors high and
both closed sensors low for close. A failed read shows nothing. -/
def pollShowsTarget (r : ReadResult) (dir : DomeDirection) : Prop :=
  match dir with
  | .DOME_CW => r.rc = 4 ∧ r.bit3 = false ∧ r.bit0 = false
  | .DOME_CCW => r.rc = 4 ∧ r.bit3 = true ∧ r.bit0 = true ∧ r.bit2 = false ∧ r.bit1 = false

instance (r : ReadResult) (dir : DomeDirection) : Decidable (pollShowsTarget r dir) := by
  cases dir <;> unfold pollShowsTarget <;> exact inferInstance

/-- No panel whose open sensor reports open in read `r` still carries a closed
flag from an earlier poll (such a flag is not refreshed by this read). -/
def noStaleClosed (r : ReadResult) (s : Dev) : Prop :=
  (r.bit3 = false → s.is_closed_North = .ISS_OFF) ∧
  (r.bit0 = false → s.is_closed_South = .ISS_OFF)

instance (r : ReadResult) (s : Dev) : Decidable (noStaleClosed r s) := by
  unfold noStaleClosed; exact inferInstance

/-- A closing in progress as `Move` and the base class leave it: motion property
busy, close switch on, coil 8257 asserted, countdown at `left`. -/
def closingDev (timeout left : Int) : Dev :=
  { initDev timeout with DomeMotionSP_s := .IPS_BUSY, DomeMotionS_CCW := .ISS_ON,
                         coil8257 := true, MotionTimeFrame := timeout,
                         MotionTimeLeft := left, m_DomeState := .DOME_MOVING }

/-- A full read with the north panel closed and the south panel in between. -/
def readNorthClosedSouthBetween : ReadResult := ⟨4, true, true, false, true⟩

/-- A full read with the north panel open and the south panel closed. -/
def readNorthOpenSouthClosed : ReadResult := ⟨4, true, false, true, false⟩

/-- A fault-free link on which the roof reads in between at the first poll, north
closed / south in between at the second, and north open / south closed from the
third on. -/
def busNorthReopens : Bus :=
  { readAt := fun n =>
      if n = 0 then readBetween
      else if n = 1 then readNorthClosedSouthBetween
      else readNorthOpenSouthClosed,
    writeAt := fun _ _ _ => 1 }

/-! # Theorems -/

/-! ## Frame facts of `checkRoofStatus` -/

theorem checkRoofStatus_frame (bus : Bus) (s : Dev) :
    (checkRoofStatus bus s).writes = s.writes ∧
    (checkRoofStatus bus s).coil8256 = s.coil8256 ∧
    (checkRoofStatus bus s).coil8257 = s.coil8257 ∧
    (checkRoofStatus bus s).nWrite = s.nWrite ∧
    (checkRoofStatus bus s).nRead = s.nRead + 1 ∧
    (checkRoofStatus bus s).DomeMotionSP_s = s.DomeMotionSP_s ∧
    (checkRoofStatus bus s).DomeMotionS_CW = s.DomeMotionS_CW ∧
    (checkRoofStatus bus s).DomeMotionS_CCW = s.DomeMotionS_CCW ∧
    (checkRoofStatus bus s).TimeoutValue = s.TimeoutValue ∧
    (checkRoofStatus bus s).MotionTimeFrame = s.MotionTimeFrame ∧
    (checkRoofStatus bus s).MotionTimeLeft = s.MotionTimeLeft ∧
    (checkRoofStatus bus s).LoopID = s.LoopID ∧
    (checkRoofStatus bus s).locked = s.locked ∧
    (checkRoofStatus bus s).connected = s.connected ∧
    (checkRoofStatus bus s).IsParked = s.IsParked := by
  unfold checkRoofStatus
  simp only [Dev.log]
  split_ifs <;> simp

@[simp]
theorem checkRoofStatus_writes (bus : Bus) (s : Dev) :
    (checkRoofStatus bus s).writes = s.writes :=
  (checkRoofStatus_frame bus s).1

@[simp]
theorem checkRoofStatus_coil8256 (bus : Bus) (s : Dev) :
    (checkRoofStatus bus s).coil8256 = s.coil8256 :=
  (checkRoofStatus_frame bus s).2.1

@[simp]
theorem checkRoofStatus_coil8257 (bus : Bus) (s : Dev) :
    (checkRoofStatus bus s).coil8257 = s.coil8257 :=
  (checkRoofStatus_frame bus s).2.2.1

@[simp]
theorem checkRoofStatus_nWrite (bus : Bus) (s : Dev) :
    (checkRoofStatus bus s).nWrite = s.nWrite :=
  (checkRoofStatus_frame bus s).2.2.2.1

@[simp]
theorem checkRoofStatus_nRead (bus : Bus) (s : Dev) :
    (checkRoofStatus bus s).nRead = s.nRead + 1 :=
  (checkRoofStatus_frame bus s).2.2.2.2.1

@[simp]
theorem checkRoofStatus_DomeMotionSP_s (bus : Bus) (s : Dev) :
    (checkRoofStatus bus s).DomeMotionSP_s = s.DomeMotionSP_s :=
  (checkRoofStatus_frame bus s).2.2.2.2.2.1

@[simp]
theorem checkRoofStatus_DomeMotionS_CW (bus : Bus) (s : Dev) :
    (checkRoofStatus bus s).DomeMotionS_CW = s.DomeMotionS_CW :=
  (checkRoofStatus_frame bus s).2.2.2.2.2.2.1

@[simp]
theorem checkRoofStatus_DomeMotionS_CCW (bus : Bus) (s : Dev) :
    (checkRoofStatus bus s).DomeMotionS_CCW = s.DomeMotionS_CCW :=
  (checkRoofStatus_frame bus s).2.2.2.2.2.2.2.1

@[simp]
theorem checkRoofStatus_TimeoutValue (bus : Bus) (s : Dev) :
    (checkRoofStatus bus s).TimeoutValue = s.TimeoutValue :=
  (checkRoofStatus_frame bus s).2.2.2.2.2.2.2.2.1

@[simp]
theorem checkRoofStatus_MotionTimeFrame (bus : Bus) (s : Dev) :
    (checkRoofStatus bus s).MotionTimeFrame = s.MotionTimeFrame :=
  (checkRoofStatus_frame bus s).2.2.2.2.2.2.2.2.2.1

@[simp]
theorem checkRoofStatus_MotionTimeLeft (bus : Bus) (s : Dev) :
    (checkRoofStatus bus s).MotionTimeLeft = s.MotionTimeLeft :=
  (checkRoofStatus_frame bus s).2.2.2.2.2.2.2.2.2.2.1

@[simp]
theorem checkRoofStatus_LoopID (bus : Bus) (s : Dev) :
    (checkRoofStatus bus s).LoopID = s.LoopID :=
  (checkRoofStatus_frame bus s).2.2.2.2.2.2.2.2.2.2.2.1

@[simp]
theorem checkRoofStatus_locked (bus : Bus) (s : Dev) :
    (checkRoofStatus bus s).locked = s.locked :=
  (checkRoofStatus_frame bus s).2.2.2.2.2.2.2.2.2.2.2.2.1

@[simp]
theorem checkRoofStatus_connected (bus : Bus) (s : Dev) :
    (checkRoofStatus bus s).connected = s.connected :=
  (checkRoofStatus_frame bus s).2.2.2.2.2.2.2.2.2.2.2.2.2.1

@[simp]
theorem checkRoofStatus_IsParked (bus : Bus) (s : Dev) :
    (checkRoofStatus bus s).IsParked = s.IsParked :=
  (checkRoofStatus_frame bus s).2.2.2.2.2.2.2.2.2.2.2.2.2.2

/-- After a full read the sensor flags follow the bits; a closed flag is only
refreshed when the open sensor of its panel does not report open. -/
theorem checkRoofStatus_flags_full (bus : Bus) (s : Dev)
    (h : (bus.readAt s.nRead).rc = 4) :
    (checkRoofStatus bus s).is_open_North = invert (bus.readAt s.nRead).bit3 ∧
    (checkRoofStatus bus s).is_open_South = invert (bus.readAt s.nRead).bit0 ∧
    (checkRoofStatus bus s).is_closed_North =
      (if (bus.readAt s.nRead).bit3 then invert (bus.readAt s.nRead).bit2
       else s.is_closed_North) ∧
    (checkRoofStatus bus s).is_closed_South =
      (if (bus.readAt s.nRead).bit0 then invert (bus.readAt s.nRead).bit1
       else s.is_closed_South) := by
  unfold checkRoofStatus
  cases h3 : (bus.readAt s.nRead).bit3 <;> cases h2 : (bus.readAt s.nRead).bit2 <;>
    cases h0 : (bus.readAt s.nRead).bit0 <;> cases h1 : (bus.readAt s.nRead).bit1 <;>
    simp [h, h0, h1, h2, h3, SWITCH_ADDRESS_COUNT, SWITCH_OPEN_NORTH, SWITCH_CLOSED_NORTH,
      SWITCH_OPEN_SOUTH, SWITCH_CLOSED_SOUTH, ReadResult.bits, invert]

/-- After a failed read the sensor flags are the ones of the poll before. -/
theorem checkRoofStatus_flags_fail (bus : Bus) (s : Dev)
    (h : (bus.readAt s.nRead).rc ≠ 4) :
    (checkRoofStatus bus s).is_open_North = s.is_open_North ∧
    (checkRoofStatus bus s).is_open_South = s.is_open_South ∧
    (checkRoofStatus bus s).is_closed_North = s.is_closed_North ∧
    (checkRoofStatus bus s).is_closed_South = s.is_closed_South := by
  unfold checkRoofStatus
  simp [h, SWITCH_ADDRESS_COUNT, Dev.log]

/-! ## The claims -/

/-- C3: the panel status `checkRoofStatus` reports depends on the current read
only and equals the specified interpretation: FAULT for both panels unless 4 bits
were read, else north from inputs 3/2 and south from inputs 0/1 with OPEN tested
before CLOSED and INDETERMINATE when neither sensor bit is 0. -/
theorem checkRoofStatus_reports_spec (bus : Bus) (s : Dev) :
    (panelNorth (checkRoofStatus bus s), panelSouth (checkRoofStatus bus s))
      = specReadPanelStatus (bus.readAt s.nRead) := by
  unfold checkRoofStatus specReadPanelStatus
  by_cases h : (bus.readAt s.nRead).rc = 4
  · cases h3 : (bus.readAt s.nRead).bit3 <;> cases h2 : (bus.readAt s.nRead).bit2 <;>
      cases h0 : (bus.readAt s.nRead).bit0 <;> cases h1 : (bus.readAt s.nRead).bit1 <;>
      simp [h, h0, h1, h2, h3, SWITCH_ADDRESS_COUNT, SWITCH_OPEN_NORTH, SWITCH_CLOSED_NORTH,
        SWITCH_OPEN_SOUTH, SWITCH_CLOSED_SOUTH, ReadResult.bits, invert, panelNorth,
        panelSouth, lightStatus, specPanel]
  · simp [h, SWITCH_ADDRESS_COUNT, panelNorth, panelSouth, lightStatus, Dev.log]

/-- C5: with no motion in progress and a positive timeout, a request to open is
refused (ALERT, no bus write) when the poll reads both panels open (inputs 3 and 0
low), and a request to close is refused (ALERT, no bus write) when the poll reads
both panels closed (inputs 3 and 0 high, inputs 2 and 1 low). -/
theorem Move_refused_at_target (bus : Bus) (s : Dev)
    (hidle : s.DomeMotionSP_s ≠ .IPS_BUSY) (ht : 0 < s.TimeoutValue)
    (hfull : (bus.readAt s.nRead).rc = 4) :
    ((bus.readAt s.nRead).bit3 = false → (bus.readAt s.nRead).bit0 = false →
      (Move bus s .DOME_CW .MOTION_START).2 = .IPS_ALERT ∧
      (Move bus s .DOME_CW .MOTION_START).1.writes = s.writes ∧
      (Move bus s .DOME_CW .MOTION_START).1.nWrite = s.nWrite) ∧
    ((bus.readAt s.nRead).bit3 = true → (bus.readAt s.nRead).bit0 = true →
      (bus.readAt s.nRead).bit2 = false → (bus.readAt s.nRead).bit1 = false →
      (Move bus s .DOME_CCW .MOTION_START).2 = .IPS_ALERT ∧
      (Move bus s .DOME_CCW .MOTION_START).1.writes = s.writes ∧
      (Move bus s .DOME_CCW .MOTION_START).1.nWrite = s.nWrite) := by
  have hne : s.TimeoutValue ≠ 0 := by omega
  have hf := checkRoofStatus_flags_full bus { s with MotionTimeFrame := s.TimeoutValue } hfull
  constructor
  · intro h3 h0
    simp [h3, h0, invert] at hf
    simp [Move, hne, hidle, hf, Dev.log]
  · intro h3 h0 h2 h1
    simp [h3, h0, h2, h1, invert] at hf
    simp [Move, hne, hidle, hf, Dev.log]

/-- C5 at a concrete input: an idle driver with timeout 60 polling an open roof
refuses to open, polling a closed roof refuses to close. -/
theorem Move_refused_at_target_witness :
    ((Move (constBus readOpen 1) (initDev 60) .DOME_CW .MOTION_START).2 = .IPS_ALERT ∧
      (Move (constBus readOpen 1) (initDev 60) .DOME_CW .MOTION_START).1.writes = [] ∧
      (Move (constBus readOpen 1) (initDev 60) .DOME_CW .MOTION_START).1.nWrite = 0) ∧
    ((Move (constBus readClosed 1) (initDev 60) .DOME_CCW .MOTION_START).2 = .IPS_ALERT ∧
      (Move (constBus readClosed 1) (initDev 60) .DOME_CCW .MOTION_START).1.writes = [] ∧
      (Move (constBus readClosed 1) (initDev 60) .DOME_CCW .MOTION_START).1.nWrite = 0) :=
  ⟨(Move_refused_at_target (constBus readOpen 1) (initDev 60) (by decide) (by decide) rfl).1
      rfl rfl,
   (Move_refused_at_target (constBus readClosed 1) (initDev 60) (by decide) (by decide) rfl).2
      rfl rfl rfl rfl⟩

/-- C6: with no motion in progress, a positive timeout and the external lock
asserted, a request to close is refused (ALERT) without any bus write, whatever
the poll returns. -/
theorem Move_close_refused_when_locked (bus : Bus) (s : Dev)
    (hidle : s.DomeMotionSP_s ≠ .IPS_BUSY) (ht : 0 < s.TimeoutValue)
    (hlock : s.locked = true) :
    (Move bus s .DOME_CCW .MOTION_START).2 = .IPS_ALERT ∧
    (Move bus s .DOME_CCW .MOTION_START).1.writes = s.writes ∧
    (Move bus s .DOME_CCW .MOTION_START).1.nWrite = s.nWrite := by
  have hne : s.TimeoutValue ≠ 0 := by omega
  simp only [Move, hne, if_false]
  split_ifs <;> simp_all [Dev.log]

/-- C6 at a concrete input: locked, idle, timeout 60, roof read as open. -/
theorem Move_close_refused_when_locked_witness :
    (Move (constBus readOpen 1) { initDev 60 with locked := true }
        .DOME_CCW .MOTION_START).2 = .IPS_ALERT ∧
    (Move (constBus readOpen 1) { initDev 60 with locked := true }
        .DOME_CCW .MOTION_START).1.writes = [] ∧
    (Move (constBus readOpen 1) { initDev 60 with locked := true }
        .DOME_CCW .MOTION_START).1.nWrite = 0 :=
  Move_close_refused_when_locked (constBus readOpen 1) { initDev 60 with locked := true }
    (by decide) (by decide) rfl

/-! ## Frame facts of the building blocks -/

@[simp]
theorem log_TimeoutValue (s : Dev) (m : LogMsg) : (s.log m).TimeoutValue = s.TimeoutValue := rfl

@[simp]
theorem log_MotionTimeFrame (s : Dev) (m : LogMsg) : (s.log m).MotionTimeFrame = s.MotionTimeFrame := rfl

@[simp]
theorem log_MotionTimeLeft (s : Dev) (m : LogMsg) : (s.log m).MotionTimeLeft = s.MotionTimeLeft := rfl

@[simp]
theorem log_LoopID (s : Dev) (m : LogMsg) : (s.log m).LoopID = s.LoopID := rfl

@[simp]
theorem log_is_open_North (s : Dev) (m : LogMsg) : (s.log m).is_open_North = s.is_open_North := rfl

@[simp]
theorem log_is_closed_North (s : Dev) (m : LogMsg) : (s.log m).is_closed_North = s.is_closed_North := rfl

@[simp]
theorem log_is_open_South (s : Dev) (m : LogMsg) : (s.log m).is_open_South = s.is_open_South := rfl

@[simp]
theorem log_is_closed_South (s : Dev) (m : LogMsg) : (s.log m).is_closed_South = s.is_closed_South := rfl

@[simp]
theorem log_connected (s : Dev) (m : LogMsg) : (s.log m).connected = s.connected := rfl

@[simp]
theorem log_locked (s : Dev) (m : LogMsg) : (s.log m).locked = s.locked := rfl

@[simp]
theorem log_DomeMotionSP_s (s : Dev) (m : LogMsg) : (s.log m).DomeMotionSP_s = s.DomeMotionSP_s := rfl

@[simp]
theorem log_DomeMotionS_CW (s : Dev) (m : LogMsg) : (s.log m).DomeMotionS_CW = s.DomeMotionS_CW := rfl

@[simp]
theorem log_DomeMotionS_CCW (s : Dev) (m : LogMsg) : (s.log m).DomeMotionS_CCW = s.DomeMotionS_CCW := rfl

@[simp]
theorem log_IsParked (s : Dev) (m : LogMsg) : (s.log m).IsParked = s.IsParked := rfl

@[simp]
theorem log_coil8256 (s : Dev) (m : LogMsg) : (s.log m).coil8256 = s.coil8256 := rfl

@[simp]
theorem log_coil8257 (s : Dev) (m : LogMsg) : (s.log m).coil8257 = s.coil8257 := rfl

@[simp]
theorem log_nRead (s : Dev) (m : LogMsg) : (s.log m).nRead = s.nRead := rfl

@[simp]
theorem log_nWrite (s : Dev) (m : LogMsg) : (s.log m).nWrite = s.nWrite := rfl

@[simp]
theorem log_writes (s : Dev) (m : LogMsg) : (s.log m).writes = s.writes := rfl

@[simp]
theorem storeCoil_TimeoutValue (s : Dev) (a v : Int) : (s.storeCoil a v).TimeoutValue = s.TimeoutValue := by
  unfold Dev.storeCoil; split_ifs <;> rfl

@[simp]
theorem storeCoil_MotionTimeFrame (s : Dev) (a v : Int) : (s.storeCoil a v).MotionTimeFrame = s.MotionTimeFrame := by
  unfold Dev.storeCoil; split_ifs <;> rfl

@[simp]
theorem storeCoil_MotionTimeLeft (s : Dev) (a v : Int) : (s.storeCoil a v).MotionTimeLeft = s.MotionTimeLeft := by
  unfold Dev.storeCoil; split_ifs <;> rfl

@[simp]
theorem storeCoil_LoopID (s : Dev) (a v : Int) : (s.storeCoil a v).LoopID = s.LoopID := by
  unfold Dev.storeCoil; split_ifs <;> rfl

@[simp]
theorem storeCoil_is_open_North (s : Dev) (a v : Int) : (s.storeCoil a v).is_open_North = s.is_open_North := by
  unfold Dev.storeCoil; split_ifs <;> rfl

@[simp]
theorem storeCoil_is_closed_North (s : Dev) (a v : Int) : (s.storeCoil a v).is_closed_North = s.is_closed_North := by
  unfold Dev.storeCoil; split_ifs <;> rfl

@[simp]
theorem storeCoil_is_open_South (s : Dev) (a v : Int) : (s.storeCoil a v).is_open_South = s.is_open_South := by
  unfold Dev.storeCoil; split_ifs <;> rfl

@[simp]
theorem storeCoil_is_closed_South (s : Dev) (a v : Int) : (s.storeCoil a v).is_closed_South = s.is_closed_South := by
  unfold Dev.storeCoil; split_ifs <;> rfl

@[simp]
theorem storeCoil_connected (s : Dev) (a v : Int) : (s.storeCoil a v).connected = s.connected := by
  unfold Dev.storeCoil; split_ifs <;> rfl

@[simp]
theorem storeCoil_locked (s : Dev) (a v : Int) : (s.storeCoil a v).locked = s.locked := by
  unfold Dev.storeCoil; split_ifs <;> rfl

@[simp]
theorem storeCoil_DomeMotionSP_s (s : Dev) (a v : Int) : (s.storeCoil a v).DomeMotionSP_s = s.DomeMotionSP_s := by
  unfold Dev.storeCoil; split_ifs <;> rfl

@[simp]
theorem storeCoil_DomeMotionS_CW (s : Dev) (a v : Int) : (s.storeCoil a v).DomeMotionS_CW = s.DomeMotionS_CW := by
  unfold Dev.storeCoil; split_ifs <;> rfl

@[simp]
theorem storeCoil_DomeMotionS_CCW (s : Dev) (a v : Int) : (s.storeCoil a v).DomeMotionS_CCW = s.DomeMotionS_CCW := by
  unfold Dev.storeCoil; split_ifs <;> rfl

@[simp]
theorem storeCoil_IsParked (s : Dev) (a v : Int) : (s.storeCoil a v).IsParked = s.IsParked := by
  unfold Dev.storeCoil; split_ifs <;> rfl

@[simp]
theorem storeCoil_nRead (s : Dev) (a v : Int) : (s.storeCoil a v).nRead = s.nRead := by
  unfold Dev.storeCoil; split_ifs <;> rfl

@[simp]
theorem storeCoil_nWrite (s : Dev) (a v : Int) : (s.storeCoil a v).nWrite = s.nWrite := by
  unfold Dev.storeCoil; split_ifs <;> rfl

@[simp]
theorem storeCoil_writes (s : Dev) (a v : Int) : (s.storeCoil a v).writes = s.writes := by
  unfold Dev.storeCoil; split_ifs <;> rfl

@[simp]
theorem setFlag_TimeoutValue (bus : Bus) (s : Dev) (a v : Int) :
    (setFlag bus s a v).1.TimeoutValue = s.TimeoutValue := by
  unfold setFlag; dsimp only; split_ifs <;> simp

@[simp]
theorem setFlag_MotionTimeFrame (bus : Bus) (s : Dev) (a v : Int) :
    (setFlag bus s a v).1.MotionTimeFrame = s.MotionTimeFrame := by
  unfold setFlag; dsimp only; split_ifs <;> simp

@[simp]
theorem setFlag_MotionTimeLeft (bus : Bus) (s : Dev) (a v : Int) :
    (setFlag bus s a v).1.MotionTimeLeft = s.MotionTimeLeft := by
  unfold setFlag; dsimp only; split_ifs <;> simp

@[simp]
theorem setFlag_LoopID (bus : Bus) (s : Dev) (a v : Int) :
    (setFlag bus s a v).1.LoopID = s.LoopID := by
  unfold setFlag; dsimp only; split_ifs <;> simp

@[simp]
theorem setFlag_is_open_North (bus : Bus) (s : Dev) (a v : Int) :
    (setFlag bus s a v).1.is_open_North = s.is_open_North := by
  unfold setFlag; dsimp only; split_ifs <;> simp

@[simp]
theorem setFlag_is_closed_North (bus : Bus) (s : Dev) (a v : Int) :
    (setFlag bus s a v).1.is_closed_North = s.is_closed_North := by
  unfold setFlag; dsimp only; split_ifs <;> simp

@[simp]
theorem setFlag_is_open_South (bus : Bus) (s : Dev) (a v : Int) :
    (setFlag bus s a v).1.is_open_South = s.is_open_South := by
  unfold setFlag; dsimp only; split_ifs <;> simp

@[simp]
theorem setFlag_is_closed_South (bus : Bus) (s : Dev) (a v : Int) :
    (setFlag bus s a v).1.is_closed_South = s.is_closed_South := by
  unfold setFlag; dsimp only; split_ifs <;> simp

@[simp]
theorem setFlag_connected (bus : Bus) (s : Dev) (a v : Int) :
    (setFlag bus s a v).1.connected = s.connected := by
  unfold setFlag; dsimp only; split_ifs <;> simp

@[simp]
theorem setFlag_locked (bus : Bus) (s : Dev) (a v : Int) :
    (setFlag bus s a v).1.locked = s.locked := by
  unfold setFlag; dsimp only; split_ifs <;> simp

@[simp]
theorem setFlag_DomeMotionSP_s (bus : Bus) (s : Dev) (a v : Int) :
    (setFlag bus s a v).1.DomeMotionSP_s = s.DomeMotionSP_s := by
  unfold setFlag; dsimp only; split_ifs <;> simp

@[simp]
theorem setFlag_DomeMotionS_CW (bus : Bus) (s : Dev) (a v : Int) :
    (setFlag bus s a v).1.DomeMotionS_CW = s.DomeMotionS_CW := by
  unfold setFlag; dsimp only; split_ifs <;> simp

@[simp]
theorem setFlag_DomeMotionS_CCW (bus : Bus) (s : Dev) (a v : Int) :
    (setFlag bus s a v).1.DomeMotionS_CCW = s.DomeMotionS_CCW := by
  unfold setFlag; dsimp only; split_ifs <;> simp

@[simp]
theorem setFlag_IsParked (bus : Bus) (s : Dev) (a v : Int) :
    (setFlag bus s a v).1.IsParked = s.IsParked := by
  unfold setFlag; dsimp only; split_ifs <;> simp

@[simp]
theorem setFlag_nRead (bus : Bus) (s : Dev) (a v : Int) :
    (setFlag bus s a v).1.nRead = s.nRead := by
  unfold setFlag; dsimp only; split_ifs <;> simp

@[simp]
theorem clearFlags_TimeoutValue (bus : Bus) (s : Dev) :
    (clearFlags bus s).1.TimeoutValue = s.TimeoutValue := by
  unfold clearFlags; dsimp only; split_ifs <;> simp

@[simp]
theorem clearFlags_MotionTimeFrame (bus : Bus) (s : Dev) :
    (clearFlags bus s).1.MotionTimeFrame = s.MotionTimeFrame := by
  unfold clearFlags; dsimp only; split_ifs <;> simp

@[simp]
theorem clearFlags_MotionTimeLeft (bus : Bus) (s : Dev) :
    (clearFlags bus s).1.MotionTimeLeft = s.MotionTimeLeft := by
  unfold clearFlags; dsimp only; split_ifs <;> simp

@[simp]
theorem clearFlags_LoopID (bus : Bus) (s : Dev) :
    (clearFlags bus s).1.LoopID = s.LoopID := by
  unfold clearFlags; dsimp only; split_ifs <;> simp

@[simp]
theorem clearFlags_is_open_North (bus : Bus) (s : Dev) :
    (clearFlags bus s).1.is_open_North = s.is_open_North := by
  unfold clearFlags; dsimp only; split_ifs <;> simp

@[simp]
theorem clearFlags_is_closed_North (bus : Bus) (s : Dev) :
    (clearFlags bus s).1.is_closed_North = s.is_closed_North := by
  unfold clearFlags; dsimp only; split_ifs <;> simp

@[simp]
theorem clearFlags_is_open_South (bus : Bus) (s : Dev) :
    (clearFlags bus s).1.is_open_South = s.is_open_South := by
  unfold clearFlags; dsimp only; split_ifs <;> simp

@[simp]
theorem clearFlags_is_closed_South (bus : Bus) (s : Dev) :
    (clearFlags bus s).1.is_closed_South = s.is_closed_South := by
  unfold clearFlags; dsimp only; split_ifs <;> simp

@[simp]
theorem clearFlags_connected (bus : Bus) (s : Dev) :
    (clearFlags bus s).1.connected = s.connected := by
  unfold clearFlags; dsimp only; split_ifs <;> simp

@[simp]
theorem clearFlags_locked (bus : Bus) (s : Dev) :
    (clearFlags bus s).1.locked = s.locked := by
  unfold clearFlags; dsimp only; split_ifs <;> simp

@[simp]
theorem clearFlags_DomeMotionSP_s (bus : Bus) (s : Dev) :
    (clearFlags bus s).1.DomeMotionSP_s = s.DomeMotionSP_s := by
  unfold clearFlags; dsimp only; split_ifs <;> simp

@[simp]
theorem clearFlags_DomeMotionS_CW (bus : Bus) (s : Dev) :
    (clearFlags bus s).1.DomeMotionS_CW = s.DomeMotionS_CW := by
  unfold clearFlags; dsimp only; split_ifs <;> simp

@[simp]
theorem clearFlags_DomeMotionS_CCW (bus : Bus) (s : Dev) :
    (clearFlags bus s).1.DomeMotionS_CCW = s.DomeMotionS_CCW := by
  unfold clearFlags; dsimp only; split_ifs <;> simp

@[simp]
theorem clearFlags_IsParked (bus : Bus) (s : Dev) :
    (clearFlags bus s).1.IsParked = s.IsParked := by
  unfold clearFlags; dsimp only; split_ifs <;> simp

@[simp]
theorem clearFlags_nRead (bus : Bus) (s : Dev) :
    (clearFlags bus s).1.nRead = s.nRead := by
  unfold clearFlags; dsimp only; split_ifs <;> simp

@[simp]
theorem setDomeState_TimeoutValue (s : Dev) (v : DomeState) :
    (setDomeState s v).TimeoutValue = s.TimeoutValue := by
  cases v <;> simp only [setDomeState] <;> split_ifs <;> rfl

@[simp]
theorem setDomeState_MotionTimeFrame (s : Dev) (v : DomeState) :
    (setDomeState s v).MotionTimeFrame = s.MotionTimeFrame := by
  cases v <;> simp only [setDomeState] <;> split_ifs <;> rfl

@[simp]
theorem setDomeState_MotionTimeLeft (s : Dev) (v : DomeState) :
    (setDomeState s v).MotionTimeLeft = s.MotionTimeLeft := by
  cases v <;> simp only [setDomeState] <;> split_ifs <;> rfl

@[simp]
theorem setDomeState_LoopID (s : Dev) (v : DomeState) :
    (setDomeState s v).LoopID = s.LoopID := by
  cases v <;> simp only [setDomeState] <;> split_ifs <;> rfl

@[simp]
theorem setDomeState_is_open_North (s : Dev) (v : DomeState) :
    (setDomeState s v).is_open_North = s.is_open_North := by
  cases v <;> simp only [setDomeState] <;> split_ifs <;> rfl

@[simp]
theorem setDomeState_is_closed_North (s : Dev) (v : DomeState) :
    (setDomeState s v).is_closed_North = s.is_closed_North := by
  cases v <;> simp only [setDomeState] <;> split_ifs <;> rfl

@[simp]
theorem setDomeState_is_open_South (s : Dev) (v : DomeState) :
    (setDomeState s v).is_open_South = s.is_open_South := by
  cases v <;> simp only [setDomeState] <;> split_ifs <;> rfl

@[simp]
theorem setDomeState_is_closed_South (s : Dev) (v : DomeState) :
    (setDomeState s v).is_closed_South = s.is_closed_South := by
  cases v <;> simp only [setDomeState] <;> split_ifs <;> rfl

@[simp]
theorem setDomeState_connected (s : Dev) (v : DomeState) :
    (setDomeState s v).connected = s.connected := by
  cases v <;> simp only [setDomeState] <;> split_ifs <;> rfl

@[simp]
theorem setDomeState_locked (s : Dev) (v : DomeState) :
    (setDomeState s v).locked = s.locked := by
  cases v <;> simp only [setDomeState] <;> split_ifs <;> rfl

@[simp]
theorem setDomeState_coil8256 (s : Dev) (v : DomeState) :
    (setDomeState s v).coil8256 = s.coil8256 := by
  cases v <;> simp only [setDomeState] <;> split_ifs <;> rfl

@[simp]
theorem setDomeState_coil8257 (s : Dev) (v : DomeState) :
    (setDomeState s v).coil8257 = s.coil8257 := by
  cases v <;> simp only [setDomeState] <;> split_ifs <;> rfl

@[simp]
theorem setDomeState_nRead (s : Dev) (v : DomeState) :
    (setDomeState s v).nRead = s.nRead := by
  cases v <;> simp only [setDomeState] <;> split_ifs <;> rfl

@[simp]
theorem setDomeState_nWrite (s : Dev) (v : DomeState) :
    (setDomeState s v).nWrite = s.nWrite := by
  cases v <;> simp only [setDomeState] <;> split_ifs <;> rfl

@[simp]
theorem setDomeState_writes (s : Dev) (v : DomeState) :
    (setDomeState s v).writes = s.writes := by
  cases v <;> simp only [setDomeState] <;> split_ifs <;> rfl

@[simp]
theorem SetParked_TimeoutValue (s : Dev) (b : Bool) :
    (SetParked s b).TimeoutValue = s.TimeoutValue := by
  unfold SetParked; dsimp only; split_ifs <;> simp

@[simp]
theorem SetParked_MotionTimeFrame (s : Dev) (b : Bool) :
    (SetParked s b).MotionTimeFrame = s.MotionTimeFrame := by
  unfold SetParked; dsimp only; split_ifs <;> simp

@[simp]
theorem SetParked_MotionTimeLeft (s : Dev) (b : Bool) :
    (SetParked s b).MotionTimeLeft = s.MotionTimeLeft := by
  unfold SetParked; dsimp only; split_ifs <;> simp

@[simp]
theorem SetParked_LoopID (s : Dev) (b : Bool) :
    (SetParked s b).LoopID = s.LoopID := by
  unfold SetParked; dsimp only; split_ifs <;> simp

@[simp]
theorem SetParked_is_open_North (s : Dev) (b : Bool) :
    (SetParked s b).is_open_North = s.is_open_North := by
  unfold SetParked; dsimp only; split_ifs <;> simp

@[simp]
theorem SetParked_is_closed_North (s : Dev) (b : Bool) :
    (SetParked s b).is_closed_North = s.is_closed_North := by
  unfold SetParked; dsimp only; split_ifs <;> simp

@[simp]
theorem SetParked_is_open_South (s : Dev) (b : Bool) :
    (SetParked s b).is_open_South = s.is_open_South := by
  unfold SetParked; dsimp only; split_ifs <;> simp

@[simp]
theorem SetParked_is_closed_South (s : Dev) (b : Bool) :
    (SetParked s b).is_closed_South = s.is_closed_South := by
  unfold SetParked; dsimp only; split_ifs <;> simp

@[simp]
theorem SetParked_connected (s : Dev) (b : Bool) :
    (SetParked s b).connected = s.connected := by
  unfold SetParked; dsimp only; split_ifs <;> simp

@[simp]
theorem SetParked_locked (s : Dev) (b : Bool) :
    (SetParked s b).locked = s.locked := by
  unfold SetParked; dsimp only; split_ifs <;> simp

@[simp]
theorem SetParked_coil8256 (s : Dev) (b : Bool) :
    (SetParked s b).coil8256 = s.coil8256 := by
  unfold SetParked; dsimp only; split_ifs <;> simp

@[simp]
theorem SetParked_coil8257 (s : Dev) (b : Bool) :
    (SetParked s b).coil8257 = s.coil8257 := by
  unfold SetParked; dsimp only; split_ifs <;> simp

@[simp]
theorem SetParked_nRead (s : Dev) (b : Bool) :
    (SetParked s b).nRead = s.nRead := by
  unfold SetParked; dsimp only; split_ifs <;> simp

@[simp]
theorem SetParked_nWrite (s : Dev) (b : Bool) :
    (SetParked s b).nWrite = s.nWrite := by
  unfold SetParked; dsimp only; split_ifs <;> simp

@[simp]
theorem SetParked_writes (s : Dev) (b : Bool) :
    (SetParked s b).writes = s.writes := by
  unfold SetParked; dsimp only; split_ifs <;> simp

/-- What `setFlag` returns and leaves on the wire and in the controller. -/
theorem setFlag_effect (bus : Bus) (s : Dev) (a v : Int) :
    (setFlag bus s a v).2 = decide (bus.writeAt s.nWrite a v = 1) ∧
    (setFlag bus s a v).1.writes = s.writes ++ [⟨a, v, bus.writeAt s.nWrite a v⟩] ∧
    (setFlag bus s a v).1.nWrite = s.nWrite + 1 ∧
    (setFlag bus s a v).1.coil8256 =
      (if bus.writeAt s.nWrite a v = 1 ∧ a = 8256 then decide (v % 256 ≠ 0) else s.coil8256) ∧
    (setFlag bus s a v).1.coil8257 =
      (if bus.writeAt s.nWrite a v = 1 ∧ a = 8257 then decide (v % 256 ≠ 0) else s.coil8257) := by
  unfold setFlag
  by_cases h : bus.writeAt s.nWrite a v = 1
  · by_cases h1 : a = 8256
    · subst h1
      simp [h, Dev.storeCoil, RELAY_ROOF_OPEN]
    · by_cases h2 : a = 8257
      · subst h2
        simp [h, Dev.storeCoil, RELAY_ROOF_OPEN, RELAY_ROOF_CLOSE]
      · simp [h, h1, h2, Dev.storeCoil, RELAY_ROOF_OPEN, RELAY_ROOF_CLOSE]
  · simp [h, Dev.log]

/-- What `clearFlags` returns and leaves on the wire and in the controller. -/
theorem clearFlags_effect (bus : Bus) (s : Dev) :
    (clearFlags bus s).2 = decide (bus.writeAt s.nWrite 8256 0 = 1 ∧
      bus.writeAt (s.nWrite + 1) 8257 0 = 1) ∧
    (clearFlags bus s).1.writes = s.writes ++ clearWrites bus s.nWrite ∧
    (clearFlags bus s).1.coil8256 =
      (if bus.writeAt s.nWrite 8256 0 = 1 then false else s.coil8256) ∧
    (clearFlags bus s).1.coil8257 =
      (if bus.writeAt s.nWrite 8256 0 = 1 ∧ bus.writeAt (s.nWrite + 1) 8257 0 = 1 then false
       else s.coil8257) := by
  have e1 := setFlag_effect bus s 8256 0
  have e2 := setFlag_effect bus (setFlag bus s 8256 0).1 8257 0
  obtain ⟨a1, a2, a3, a4, a5⟩ := e1
  obtain ⟨b1, b2, b3, b4, b5⟩ := e2
  rw [a3] at b1 b2 b3 b4 b5
  unfold clearFlags clearWrites
  simp only [RELAY_ROOF_OPEN, RELAY_ROOF_CLOSE]
  by_cases h0 : bus.writeAt s.nWrite 8256 0 = 1
  · by_cases h1 : bus.writeAt (s.nWrite + 1) 8257 0 = 1
    · simp [a1, a2, a4, a5, b1, b2, b4, b5, h0, h1]
    · simp [a1, a2, a4, a5, b1, b2, b4, b5, h0, h1]
  · simp [a1, a2, a4, a5, h0]

/-- `Abort` always reports success. -/
theorem Abort_result (bus : Bus) (s : Dev) : (Abort bus s).2 = true := by
  unfold Abort
  dsimp only
  split_ifs <;> rfl

/-- The bus writes of `Abort`: the clearing writes when a motion is marked busy,
none otherwise. -/
theorem Abort_writes (bus : Bus) (s : Dev) :
    (Abort bus s).1.writes =
      (if s.DomeMotionSP_s = .IPS_BUSY then s.writes ++ clearWrites bus s.nWrite
       else s.writes) := by
  have hc := fun t => (clearFlags_effect bus t).2.1
  unfold Abort
  dsimp only
  by_cases hb : s.DomeMotionSP_s = .IPS_BUSY
  · simp only [checkRoofStatus_DomeMotionSP_s, hb]
    split_ifs <;> simp_all
  · simp only [checkRoofStatus_DomeMotionSP_s, hb]
    split_ifs <;> simp_all

/-- The coils after `Abort`. -/
theorem Abort_coils (bus : Bus) (s : Dev) :
    (Abort bus s).1.coil8256 =
      (if s.DomeMotionSP_s = .IPS_BUSY ∧ bus.writeAt s.nWrite 8256 0 = 1 then false
       else s.coil8256) ∧
    (Abort bus s).1.coil8257 =
      (if s.DomeMotionSP_s = .IPS_BUSY ∧ bus.writeAt s.nWrite 8256 0 = 1 ∧
          bus.writeAt (s.nWrite + 1) 8257 0 = 1 then false
       else s.coil8257) := by
  have hc1 := fun t => (clearFlags_effect bus t).2.2.1
  have hc2 := fun t => (clearFlags_effect bus t).2.2.2
  unfold Abort
  dsimp only
  by_cases hb : s.DomeMotionSP_s = .IPS_BUSY
  · simp only [checkRoofStatus_DomeMotionSP_s, hb]
    split_ifs <;> simp_all
  · simp only [checkRoofStatus_DomeMotionSP_s, hb]
    split_ifs <;> simp_all

/-- The motion property after `Abort`: a busy motion goes idle when the coils were
cleared and stays busy when a clearing write failed. -/
theorem Abort_DomeMotionSP_s (bus : Bus) (s : Dev) :
    (Abort bus s).1.DomeMotionSP_s =
      (if s.DomeMotionSP_s = .IPS_BUSY ∧ bus.writeAt s.nWrite 8256 0 = 1 ∧
          bus.writeAt (s.nWrite + 1) 8257 0 = 1 then .IPS_IDLE
       else s.DomeMotionSP_s) := by
  have hc := fun t => (clearFlags_effect bus t).1
  unfold Abort
  dsimp only
  by_cases hb : s.DomeMotionSP_s = .IPS_BUSY
  · simp only [checkRoofStatus_DomeMotionSP_s, hb]
    split_ifs <;> simp_all [setDomeState]
  · simp only [checkRoofStatus_DomeMotionSP_s, hb]
    split_ifs <;> simp_all [setDomeState]

/-- Fields `Abort` never touches. -/
theorem Abort_frame (bus : Bus) (s : Dev) :
    (Abort bus s).1.TimeoutValue = s.TimeoutValue ∧
    (Abort bus s).1.MotionTimeFrame = s.MotionTimeFrame ∧
    (Abort bus s).1.MotionTimeLeft = s.MotionTimeLeft ∧
    (Abort bus s).1.LoopID = s.LoopID ∧
    (Abort bus s).1.locked = s.locked ∧
    (Abort bus s).1.connected = s.connected := by
  unfold Abort
  dsimp only
  split_ifs <;> simp

/-- `Move` while a motion is marked busy (timeout not 0): the call is `Abort` on
the polled state, answered with IPS_IDLE. -/
theorem Move_busy (bus : Bus) (s : Dev) (dir : DomeDirection) (op : DomeMotionCommand)
    (h0 : s.TimeoutValue ≠ 0) (hb : s.DomeMotionSP_s = .IPS_BUSY) :
    Move bus s dir op =
      ((Abort bus (checkRoofStatus bus { s with MotionTimeFrame := s.TimeoutValue })).1,
        .IPS_IDLE) := by
  simp [Move, h0, hb, Abort_result]

theorem newWrites_of_append {s t : Dev} {l : List CoilWrite}
    (h : t.writes = s.writes ++ l) : newWrites s t = l := by
  simp [newWrites, h]

/-- The four ways a Move(dir, MOTION_START) can go: accepted (one acknowledged
write of 1 to the coil of `dir`), refused before any write, failed on the write,
or turned into an abort because a motion is marked busy. -/
theorem Move_start_cases (bus : Bus) (s : Dev) (dir : DomeDirection) :
    ((Move bus s dir .MOTION_START).2 = .IPS_BUSY ∧
      (Move bus s dir .MOTION_START).1.writes = s.writes ++ [⟨relayOf dir, 1, 1⟩] ∧
      (Move bus s dir .MOTION_START).1.MotionTimeLeft = s.TimeoutValue ∧
      (Move bus s dir .MOTION_START).1.LoopID = some 1000 ∧
      (Move bus s dir .MOTION_START).1.coil8256
        = (if dir = .DOME_CW then true else s.coil8256) ∧
      (Move bus s dir .MOTION_START).1.coil8257
        = (if dir = .DOME_CCW then true else s.coil8257) ∧
      s.DomeMotionSP_s ≠ .IPS_BUSY ∧ s.TimeoutValue ≠ 0) ∨
    ((Move bus s dir .MOTION_START).2 = .IPS_ALERT ∧
      (Move bus s dir .MOTION_START).1.writes = s.writes ∧
      (Move bus s dir .MOTION_START).1.MotionTimeLeft = s.MotionTimeLeft ∧
      (Move bus s dir .MOTION_START).1.coil8256 = s.coil8256 ∧
      (Move bus s dir .MOTION_START).1.coil8257 = s.coil8257) ∨
    ((Move bus s dir .MOTION_START).2 = .IPS_ALERT ∧
      (∃ rc, rc ≠ 1 ∧
        (Move bus s dir .MOTION_START).1.writes = s.writes ++ [⟨relayOf dir, 1, rc⟩]) ∧
      (Move bus s dir .MOTION_START).1.MotionTimeLeft = s.MotionTimeLeft ∧
      (Move bus s dir .MOTION_START).1.coil8256 = s.coil8256 ∧
      (Move bus s dir .MOTION_START).1.coil8257 = s.coil8257) ∨
    ((Move bus s dir .MOTION_START).2 = .IPS_IDLE ∧
      s.DomeMotionSP_s = .IPS_BUSY ∧ s.TimeoutValue ≠ 0 ∧
      Move bus s dir .MOTION_START =
        ((Abort bus (checkRoofStatus bus { s with MotionTimeFrame := s.TimeoutValue })).1,
          .IPS_IDLE)) := by
  by_cases h0 : s.TimeoutValue = 0
  · right; left
    simp [Move, h0]
  · by_cases hb : s.DomeMotionSP_s = .IPS_BUSY
    · right; right; right
      rw [Move_busy bus s dir _ h0 hb]
      exact ⟨rfl, hb, h0, rfl⟩
    · have f1 : (checkRoofStatus bus { s with MotionTimeFrame := s.TimeoutValue }).writes
          = s.writes := by simp
      have f2 : (checkRoofStatus bus { s with MotionTimeFrame := s.TimeoutValue }).nWrite
          = s.nWrite := by simp
      have f3 : (checkRoofStatus bus { s with MotionTimeFrame := s.TimeoutValue }).coil8256
          = s.coil8256 := by simp
      have f4 : (checkRoofStatus bus { s with MotionTimeFrame := s.TimeoutValue }).coil8257
          = s.coil8257 := by simp
      have f5 : (checkRoofStatus bus
          { s with MotionTimeFrame := s.TimeoutValue }).DomeMotionSP_s ≠ .IPS_BUSY := by
        simpa using hb
      have f6 : (checkRoofStatus bus
          { s with MotionTimeFrame := s.TimeoutValue }).MotionTimeLeft = s.MotionTimeLeft := by
        simp
      have f7 : (checkRoofStatus bus
          { s with MotionTimeFrame := s.TimeoutValue }).MotionTimeFrame = s.TimeoutValue := by
        simp
      simp only [Move, h0, if_false]
      generalize checkRoofStatus bus { s with MotionTimeFrame := s.TimeoutValue } = s1 at *
      have hw := fun a => setFlag_effect bus s1 a 1
      cases dir
      · obtain ⟨w1, w2, -, w4, w5⟩ := hw 8256
        by_cases ht : s1.is_open_North = .ISS_ON ∧ s1.is_open_South = .ISS_ON
        · right; left
          simp [f1, f3, f4, f5, f6, ht]
        · by_cases hk : bus.writeAt s1.nWrite 8256 1 = 1
          · left
            simp [f1, f3, f4, f5, f6, f7, ht, w1, w2, w4, w5, hk, relayOf, RELAY_ROOF_OPEN,
              RELAY_ROOF_CLOSE, hb, h0]
          · right; right; left
            simp [f1, f3, f4, f5, f6, f7, ht, w1, w2, w4, w5, hk, relayOf, RELAY_ROOF_OPEN,
              RELAY_ROOF_CLOSE]
      · obtain ⟨w1, w2, -, w4, w5⟩ := hw 8257
        by_cases ht : s1.is_closed_North = .ISS_ON ∧ s1.is_closed_South = .ISS_ON
        · right; left
          simp [f1, f3, f4, f5, f6, ht]
        · by_cases hl : s1.locked = true
          · right; left
            simp [f1, f3, f4, f5, f6, ht, hl]
          · by_cases hk : bus.writeAt s1.nWrite 8257 1 = 1
            · left
              simp [f1, f3, f4, f5, f6, f7, ht, hl, w1, w2, w4, w5, hk, relayOf,
                RELAY_ROOF_OPEN, RELAY_ROOF_CLOSE, hb, h0]
            · right; right; left
              simp [f1, f3, f4, f5, f6, f7, ht, hl, w1, w2, w4, w5, hk, relayOf,
                RELAY_ROOF_OPEN, RELAY_ROOF_CLOSE]

/-- C4, the code at a negative timeout: the timeout property accepts -1 (no range
check in `ISNewNumber`), and with it an idle driver polling a closed roof does not
refuse a request to open: it writes 1 to coil 8256, answers IPS_BUSY and starts
the countdown at -1. -/
theorem Move_negative_timeout_not_refused :
    (ISNewNumber (initDev 0) (-1)).TimeoutValue = -1 ∧
    (Move (constBus readClosed 1) (ISNewNumber (initDev 0) (-1))
      .DOME_CW .MOTION_START).2 = .IPS_BUSY ∧
    (Move (constBus readClosed 1) (ISNewNumber (initDev 0) (-1))
      .DOME_CW .MOTION_START).1.writes = [⟨8256, 1, 1⟩] ∧
    (Move (constBus readClosed 1) (ISNewNumber (initDev 0) (-1))
      .DOME_CW .MOTION_START).1.coil8256 = true ∧
    (Move (constBus readClosed 1) (ISNewNumber (initDev 0) (-1))
      .DOME_CW .MOTION_START).1.MotionTimeLeft = -1 := by
  decide

/-- C7: Move(dir, MOTION_START) answers IPS_BUSY exactly when the call put an
acknowledged write of 1 to the coil of `dir` on the wire; then that is its only
write (no write of 1 to the other coil, whose value is left as it was),
MotionTimeLeft is the configured timeout and the timer is set to 1000 ms; when the
write of 1 is not acknowledged the answer is IPS_ALERT and MotionTimeLeft is
unchanged. -/
theorem Move_busy_iff_coil_written (bus : Bus) (s : Dev) (dir : DomeDirection) :
    ((Move bus s dir .MOTION_START).2 = .IPS_BUSY ↔
      ⟨relayOf dir, 1, 1⟩ ∈ newWrites s (Move bus s dir .MOTION_START).1) ∧
    ((Move bus s dir .MOTION_START).2 = .IPS_BUSY →
      newWrites s (Move bus s dir .MOTION_START).1 = [⟨relayOf dir, 1, 1⟩] ∧
      (∀ w ∈ newWrites s (Move bus s dir .MOTION_START).1,
        w.bitval = 1 → w.addr = relayOf dir) ∧
      (Move bus s dir .MOTION_START).1.coil8256
        = (if dir = .DOME_CW then true else s.coil8256) ∧
      (Move bus s dir .MOTION_START).1.coil8257
        = (if dir = .DOME_CCW then true else s.coil8257) ∧
      (Move bus s dir .MOTION_START).1.MotionTimeLeft = s.TimeoutValue ∧
      (Move bus s dir .MOTION_START).1.LoopID = some 1000) ∧
    ((∃ rc, rc ≠ 1 ∧ ⟨relayOf dir, 1, rc⟩ ∈ newWrites s (Move bus s dir .MOTION_START).1) →
      (Move bus s dir .MOTION_START).2 = .IPS_ALERT ∧
      (Move bus s dir .MOTION_START).1.MotionTimeLeft = s.MotionTimeLeft) := by
  rcases Move_start_cases bus s dir with
    ⟨hr, hw, hl, ht, c1, c2, -, -⟩ | ⟨hr, hw, hl, -, -⟩ | ⟨hr, ⟨rc, hrc, hw⟩, hl, -, -⟩ |
    ⟨hr, hb, h0, he⟩
  · have hn := newWrites_of_append hw
    simp [hr, hn, hl, ht, c1, c2]
  · have hn : newWrites s (Move bus s dir .MOTION_START).1 = [] :=
      newWrites_of_append (by simpa using hw)
    simp [hr, hn, hl]
  · have hn := newWrites_of_append hw
    have hrc2 : ¬ (1 : Int) = rc := fun h => hrc h.symm
    simp [hr, hn, hl, hrc2]
  · have hw : (Move bus s dir .MOTION_START).1.writes = s.writes ++ clearWrites bus s.nWrite := by
      rw [he]; simp [Abort_writes, hb]
    have hl : (Move bus s dir .MOTION_START).1.MotionTimeLeft = s.MotionTimeLeft := by
      rw [he]; simp [(Abort_frame bus _).2.2.1]
    have hn := newWrites_of_append hw
    rw [hn]
    simp only [hr, hl, clearWrites]
    cases dir <;> split_ifs <;> simp [relayOf, RELAY_ROOF_OPEN, RELAY_ROOF_CLOSE]

/-- C8 fails as stated: an accepted request to open (answer IPS_BUSY) puts exactly
one transaction on the wire, the write of 1 to coil 8256; no coil is written 0
before it. -/
theorem Move_accepted_no_clear_counterexample :
    (Move (constBus readClosed 1) (initDev 60) .DOME_CW .MOTION_START).2 = .IPS_BUSY ∧
    newWrites (initDev 60)
      (Move (constBus readClosed 1) (initDev 60) .DOME_CW .MOTION_START).1 = [⟨8256, 1, 1⟩] ∧
    ¬ ∃ w ∈ newWrites (initDev 60)
      (Move (constBus readClosed 1) (initDev 60) .DOME_CW .MOTION_START).1, w.bitval = 0 := by
  decide

/-- C8 as amended: an accepted Move(dir, MOTION_START) issues exactly one bus
write, the acknowledged write of 1 to the coil of `dir`; it writes 0 to no
coil. -/
theorem Move_accepted_single_write (bus : Bus) (s : Dev) (dir : DomeDirection)
    (hacc : (Move bus s dir .MOTION_START).2 = .IPS_BUSY) :
    newWrites s (Move bus s dir .MOTION_START).1 = [⟨relayOf dir, 1, 1⟩] ∧
    ∀ w ∈ newWrites s (Move bus s dir .MOTION_START).1, w.bitval ≠ 0 := by
  rcases Move_start_cases bus s dir with
    ⟨-, hw, -⟩ | ⟨hr, -⟩ | ⟨hr, -⟩ | ⟨hr, -⟩
  · simp [newWrites_of_append hw]
  · rw [hr] at hacc; exact absurd hacc (by decide)
  · rw [hr] at hacc; exact absurd hacc (by decide)
  · rw [hr] at hacc; exact absurd hacc (by decide)

/-- C8 as amended, at a concrete input: idle driver, timeout 60, closed roof,
request to close is refused but request to open is accepted with one write. -/
theorem Move_accepted_single_write_witness :
    newWrites (initDev 60)
      (Move (constBus readClosed 1) (initDev 60) .DOME_CW .MOTION_START).1 = [⟨8256, 1, 1⟩] ∧
    ∀ w ∈ newWrites (initDev 60)
      (Move (constBus readClosed 1) (initDev 60) .DOME_CW .MOTION_START).1, w.bitval ≠ 0 :=
  Move_accepted_single_write (constBus readClosed 1) (initDev 60) .DOME_CW (by decide)

/-- C9: with a motion marked busy and a positive timeout, Move(dir, MOTION_START)
is an abort: its result is the state `Abort` leaves (on the polled state), its bus
writes are the clearing writes of `clearFlags` (0 to coil 8256, then 0 to coil
8257 once the first is acknowledged), none of them writes 1, and the answer is
IPS_IDLE, not IPS_BUSY. -/
theorem Move_while_busy_aborts (bus : Bus) (s : Dev) (dir : DomeDirection)
    (hb : s.DomeMotionSP_s = .IPS_BUSY) (ht : 0 < s.TimeoutValue) :
    (Move bus s dir .MOTION_START).1
      = (Abort bus (checkRoofStatus bus { s with MotionTimeFrame := s.TimeoutValue })).1 ∧
    newWrites s (Move bus s dir .MOTION_START).1 = clearWrites bus s.nWrite ∧
    (∃ rc, ⟨8256, 0, rc⟩ ∈ newWrites s (Move bus s dir .MOTION_START).1) ∧
    (bus.writeAt s.nWrite 8256 0 = 1 →
      ∃ rc, ⟨8257, 0, rc⟩ ∈ newWrites s (Move bus s dir .MOTION_START).1) ∧
    (∀ w ∈ newWrites s (Move bus s dir .MOTION_START).1, w.bitval = 0) ∧
    (Move bus s dir .MOTION_START).2 = .IPS_IDLE ∧
    (Move bus s dir .MOTION_START).2 ≠ .IPS_BUSY := by
  have h0 : s.TimeoutValue ≠ 0 := by omega
  have he := Move_busy bus s dir .MOTION_START h0 hb
  have hw : (Move bus s dir .MOTION_START).1.writes = s.writes ++ clearWrites bus s.nWrite := by
    rw [he]; simp [Abort_writes, hb]
  have hn := newWrites_of_append hw
  rw [hn]
  have hres : (Move bus s dir .MOTION_START).2 = .IPS_IDLE := by rw [he]
  refine ⟨by rw [he], rfl, ?_, ?_, ?_, hres, by rw [hres]; decide⟩
  · exact ⟨bus.writeAt s.nWrite 8256 0, by simp [clearWrites, RELAY_ROOF_OPEN]⟩
  · intro hk
    exact ⟨bus.writeAt (s.nWrite + 1) 8257 0, by simp [clearWrites, RELAY_ROOF_CLOSE, hk,
      RELAY_ROOF_OPEN]⟩
  · intro w hwm
    simp only [clearWrites] at hwm
    split_ifs at hwm
    · simp only [List.mem_cons, List.mem_singleton, List.not_mem_nil, or_false] at hwm
      rcases hwm with h | h <;> rw [h]
    · simp only [List.mem_singleton] at hwm
      rw [hwm]

/-- C9 at a concrete input: opening in progress (coil 8256 asserted), timeout 60,
request to close: only zeros are written and the answer is IPS_IDLE. -/
theorem Move_while_busy_aborts_witness :
    (∀ w ∈ newWrites
        { initDev 60 with DomeMotionSP_s := .IPS_BUSY, DomeMotionS_CW := .ISS_ON,
                          coil8256 := true }
        (Move (constBus readBetween 1)
          { initDev 60 with DomeMotionSP_s := .IPS_BUSY, DomeMotionS_CW := .ISS_ON,
                            coil8256 := true }
          .DOME_CCW .MOTION_START).1, w.bitval = 0) ∧
    (Move (constBus readBetween 1)
      { initDev 60 with DomeMotionSP_s := .IPS_BUSY, DomeMotionS_CW := .ISS_ON,
                        coil8256 := true }
      .DOME_CCW .MOTION_START).2 = .IPS_IDLE ∧
    (Move (constBus readBetween 1)
      { initDev 60 with DomeMotionSP_s := .IPS_BUSY, DomeMotionS_CW := .ISS_ON,
                        coil8256 := true }
      .DOME_CCW .MOTION_START).2 ≠ .IPS_BUSY :=
  (Move_while_busy_aborts (constBus readBetween 1)
    { initDev 60 with DomeMotionSP_s := .IPS_BUSY, DomeMotionS_CW := .ISS_ON,
                      coil8256 := true }
    .DOME_CCW rfl (by decide)).2.2.2.2

theorem SetParked_IsParked (s : Dev) (b : Bool) :
    (SetParked s b).IsParked = b ∧
    (SetParked s b).ParkS_PARK = (if b then .ISS_ON else .ISS_OFF) ∧
    (SetParked s b).ParkS_UNPARK = (if b then .ISS_OFF else .ISS_ON) := by
  cases b
  · simp only [SetParked, setDomeState]
    split_ifs <;> simp_all
  · simp only [SetParked, setDomeState]
    split_ifs <;> simp_all

/-- The success branch of `TimerHit` (countdown zeroed, coils cleared, park state
set, motion property IPS_OK) when both clearing writes are acknowledged. -/
theorem TimerHit_done_branch (bus : Bus) (s1 : Dev) (m : LogMsg) (b : Bool)
    (hw0 : bus.writeAt s1.nWrite 8256 0 = 1) (hw1 : bus.writeAt (s1.nWrite + 1) 8257 0 = 1) :
    (SetParked (clearFlags bus { s1.log m with MotionTimeLeft := 0 }).1 b).coil8256 = false ∧
    (SetParked (clearFlags bus { s1.log m with MotionTimeLeft := 0 }).1 b).coil8257 = false ∧
    (SetParked (clearFlags bus { s1.log m with MotionTimeLeft := 0 }).1 b).writes
      = s1.writes ++ clearWrites bus s1.nWrite ∧
    (SetParked (clearFlags bus { s1.log m with MotionTimeLeft := 0 }).1 b).IsParked = b ∧
    (SetParked (clearFlags bus { s1.log m with MotionTimeLeft := 0 }).1 b).MotionTimeLeft
      = 0 := by
  have n1 : ({ s1.log m with MotionTimeLeft := 0 } : Dev).nWrite = s1.nWrite := rfl
  have n2 : ({ s1.log m with MotionTimeLeft := 0 } : Dev).writes = s1.writes := rfl
  have n3 : ({ s1.log m with MotionTimeLeft := 0 } : Dev).MotionTimeLeft = 0 := rfl
  generalize ({ s1.log m with MotionTimeLeft := 0 } : Dev) = s2 at *
  obtain ⟨-, e2, e3, e4⟩ := clearFlags_effect bus s2
  rw [n1] at e2 e3 e4
  rw [n2] at e2
  simp only [hw0, hw1, and_self, if_true] at e3 e4
  refine ⟨?_, ?_, ?_, (SetParked_IsParked _ b).1, ?_⟩
  · rw [SetParked_coil8256, e3]
  · rw [SetParked_coil8257, e4]
  · rw [SetParked_writes, e2]
  · rw [SetParked_MotionTimeLeft, clearFlags_MotionTimeLeft, n3]

/-- C10: a connected tick during a busy motion whose poll shows both panels at
the target ends the motion whatever MotionTimeLeft is: with the two clearing
writes acknowledged, after an opening (open switch on, inputs 3 and 0 low) the
motion property is IPS_OK (not busy), both coils are clear, the roof is marked
unparked and MotionTimeLeft is 0; after a closing (close switch on, inputs 3 and 0
high, inputs 2 and 1 low) the same holds with the roof marked parked. -/
theorem TimerHit_target_reached (bus : Bus) (s : Dev)
    (hc : s.connected = true) (hb : s.DomeMotionSP_s = .IPS_BUSY)
    (hfull : (bus.readAt s.nRead).rc = 4)
    (hw0 : bus.writeAt s.nWrite 8256 0 = 1) (hw1 : bus.writeAt (s.nWrite + 1) 8257 0 = 1) :
    (s.DomeMotionS_CW = .ISS_ON →
      (bus.readAt s.nRead).bit3 = false → (bus.readAt s.nRead).bit0 = false →
      (TimerHit bus s).DomeMotionSP_s = .IPS_OK ∧
      (TimerHit bus s).DomeMotionSP_s ≠ .IPS_BUSY ∧
      (TimerHit bus s).coil8256 = false ∧ (TimerHit bus s).coil8257 = false ∧
      newWrites s (TimerHit bus s) = [⟨8256, 0, 1⟩, ⟨8257, 0, 1⟩] ∧
      (TimerHit bus s).IsParked = false ∧
      (TimerHit bus s).MotionTimeLeft = 0) ∧
    (s.DomeMotionS_CW = .ISS_OFF → s.DomeMotionS_CCW = .ISS_ON →
      (bus.readAt s.nRead).bit3 = true → (bus.readAt s.nRead).bit0 = true →
      (bus.readAt s.nRead).bit2 = false → (bus.readAt s.nRead).bit1 = false →
      (TimerHit bus s).DomeMotionSP_s = .IPS_OK ∧
      (TimerHit bus s).DomeMotionSP_s ≠ .IPS_BUSY ∧
      (TimerHit bus s).coil8256 = false ∧ (TimerHit bus s).coil8257 = false ∧
      newWrites s (TimerHit bus s) = [⟨8256, 0, 1⟩, ⟨8257, 0, 1⟩] ∧
      (TimerHit bus s).IsParked = true ∧
      (TimerHit bus s).MotionTimeLeft = 0) := by
  have hf := checkRoofStatus_flags_full bus s hfull
  have f1 : (checkRoofStatus bus s).writes = s.writes := by simp
  have f2 : (checkRoofStatus bus s).nWrite = s.nWrite := by simp
  have f5 : (checkRoofStatus bus s).DomeMotionSP_s = .IPS_BUSY := by simpa using hb
  have f6 : (checkRoofStatus bus s).DomeMotionS_CW = s.DomeMotionS_CW := by simp
  have f7 : (checkRoofStatus bus s).DomeMotionS_CCW = s.DomeMotionS_CCW := by simp
  have hnw : ∀ t : Dev, t.writes = s.writes ++ clearWrites bus s.nWrite →
      newWrites s t = [⟨8256, 0, 1⟩, ⟨8257, 0, 1⟩] := by
    intro t ht
    rw [newWrites_of_append ht]
    simp [clearWrites, RELAY_ROOF_OPEN, RELAY_ROOF_CLOSE, hw0, hw1]
  simp only [TimerHit, hc, Bool.not_true, Bool.false_eq_true, if_false]
  generalize checkRoofStatus bus s = s1 at *
  obtain ⟨g1, g2, g3, g4⟩ := hf
  rw [← f2] at hw0 hw1
  constructor
  · intro hcw h3 h0
    rw [h3] at g1
    rw [h0] at g2
    have ht : s1.is_open_North = .ISS_ON ∧ s1.is_open_South = .ISS_ON := ⟨g1, g2⟩
    have hcw1 : s1.DomeMotionS_CW = .ISS_ON := f6.trans hcw
    obtain ⟨d1, d2, d3, d4, d5⟩ := TimerHit_done_branch bus s1 .roofIsOpen false hw0 hw1
    rw [f1, f2] at d3
    simp only [f5, hcw1, ht, and_self, if_true]
    refine ⟨trivial, by decide, d1, d2, hnw _ d3, d4, d5⟩
  · intro hcw hccw h3 h0 h2 h1
    rw [h3, h2] at g3
    rw [h0, h1] at g4
    have ht : s1.is_closed_North = .ISS_ON ∧ s1.is_closed_South = .ISS_ON := ⟨g3, g4⟩
    have hcw1 : ¬ s1.DomeMotionS_CW = .ISS_ON := by rw [f6, hcw]; decide
    have hccw1 : s1.DomeMotionS_CCW = .ISS_ON := f7.trans hccw
    obtain ⟨d1, d2, d3, d4, d5⟩ := TimerHit_done_branch bus s1 .roofIsClosed true hw0 hw1
    rw [f1, f2] at d3
    simp only [f5, hcw1, hccw1, ht, and_self, if_true, if_false]
    refine ⟨trivial, by decide, d1, d2, hnw _ d3, d4, d5⟩

/-- C10 at a concrete input: opening with one second left on the countdown, both
panels read open, writes acknowledged. -/
theorem TimerHit_target_reached_witness :
    (TimerHit (constBus readOpen 1)
      { initDev 60 with DomeMotionSP_s := .IPS_BUSY, DomeMotionS_CW := .ISS_ON,
                        coil8256 := true, MotionTimeLeft := 1 }).DomeMotionSP_s = .IPS_OK ∧
    (TimerHit (constBus readOpen 1)
      { initDev 60 with DomeMotionSP_s := .IPS_BUSY, DomeMotionS_CW := .ISS_ON,
                        coil8256 := true, MotionTimeLeft := 1 }).DomeMotionSP_s
        ≠ .IPS_BUSY ∧
    (TimerHit (constBus readOpen 1)
      { initDev 60 with DomeMotionSP_s := .IPS_BUSY, DomeMotionS_CW := .ISS_ON,
                        coil8256 := true, MotionTimeLeft := 1 }).coil8256 = false ∧
    (TimerHit (constBus readOpen 1)
      { initDev 60 with DomeMotionSP_s := .IPS_BUSY, DomeMotionS_CW := .ISS_ON,
                        coil8256 := true, MotionTimeLeft := 1 }).coil8257 = false ∧
    newWrites
      { initDev 60 with DomeMotionSP_s := .IPS_BUSY, DomeMotionS_CW := .ISS_ON,
                        coil8256 := true, MotionTimeLeft := 1 }
      (TimerHit (constBus readOpen 1)
        { initDev 60 with DomeMotionSP_s := .IPS_BUSY, DomeMotionS_CW := .ISS_ON,
                          coil8256 := true, MotionTimeLeft := 1 })
      = [⟨8256, 0, 1⟩, ⟨8257, 0, 1⟩] ∧
    (TimerHit (constBus readOpen 1)
      { initDev 60 with DomeMotionSP_s := .IPS_BUSY, DomeMotionS_CW := .ISS_ON,
                        coil8256 := true, MotionTimeLeft := 1 }).IsParked = false ∧
    (TimerHit (constBus readOpen 1)
      { initDev 60 with DomeMotionSP_s := .IPS_BUSY, DomeMotionS_CW := .ISS_ON,
                        coil8256 := true, MotionTimeLeft := 1 }).MotionTimeLeft = 0 :=
  (TimerHit_target_reached (constBus readOpen 1)
    { initDev 60 with DomeMotionSP_s := .IPS_BUSY, DomeMotionS_CW := .ISS_ON,
                      coil8256 := true, MotionTimeLeft := 1 }
    rfl rfl rfl rfl rfl).1 rfl rfl rfl

/-- C1 fails as stated: from the idle driver with both coils clear, an accepted
request to open, a request to close that is turned into an abort whose clearing
write is lost, and a second request to close leave coil 8256 and coil 8257 both
asserted. -/
theorem coils_both_asserted_counterexample :
    (initDev 60).DomeMotionSP_s ≠ .IPS_BUSY ∧
    (initDev 60).coil8256 = false ∧ (initDev 60).coil8257 = false ∧
    (run busSecondWriteLost (initDev 60)
      [.move .DOME_CW .MOTION_START, .move .DOME_CCW .MOTION_START,
       .move .DOME_CCW .MOTION_START]).coil8256 = true ∧
    (run busSecondWriteLost (initDev 60)
      [.move .DOME_CW .MOTION_START, .move .DOME_CCW .MOTION_START,
       .move .DOME_CCW .MOTION_START]).coil8257 = true := by
  decide

theorem Move_TimeoutValue (bus : Bus) (s : Dev) (dir : DomeDirection)
    (op : DomeMotionCommand) : (Move bus s dir op).1.TimeoutValue = s.TimeoutValue := by
  cases dir <;> simp only [Move] <;> split_ifs <;> simp [(Abort_frame bus _).1]

/-- `Move` with MOTION_STOP and a timeout configured is `Abort` on the polled
state, answered with IPS_IDLE. -/
theorem Move_stop (bus : Bus) (s : Dev) (dir : DomeDirection) (h0 : s.TimeoutValue ≠ 0) :
    Move bus s dir .MOTION_STOP =
      ((Abort bus (checkRoofStatus bus { s with MotionTimeFrame := s.TimeoutValue })).1,
        .IPS_IDLE) := by
  simp [Move, h0, Abort_result]

theorem Move_zero_timeout (bus : Bus) (s : Dev) (dir : DomeDirection)
    (op : DomeMotionCommand) (h0 : s.TimeoutValue = 0) :
    (Move bus s dir op).2 = .IPS_ALERT ∧
    (Move bus s dir op).1.coil8256 = s.coil8256 ∧
    (Move bus s dir op).1.coil8257 = s.coil8257 ∧
    (Move bus s dir op).1.writes = s.writes := by
  simp [Move, h0]

theorem Dome_Move_proj (bus : Bus) (s : Dev) (dir : DomeDirection) (op : DomeMotionCommand) :
    (Dome_Move bus s dir op).coil8256 = (Move bus s dir op).1.coil8256 ∧
    (Dome_Move bus s dir op).coil8257 = (Move bus s dir op).1.coil8257 ∧
    (Dome_Move bus s dir op).DomeMotionSP_s = (Move bus s dir op).2 ∧
    (Dome_Move bus s dir op).TimeoutValue = s.TimeoutValue := by
  have ht := Move_TimeoutValue bus s dir op
  unfold Dome_Move
  dsimp only
  split_ifs <;> exact ⟨rfl, rfl, rfl, ht⟩

/-- With clearing writes acknowledged, `Abort` keeps the coil invariant. -/
theorem Abort_coilInv (bus : Bus) (hclr : ∀ n a, bus.writeAt n a 0 = 1) (s : Dev)
    (hi : coilInv s) :
    coilInv (Abort bus s).1 ∧ (Abort bus s).1.TimeoutValue = s.TimeoutValue := by
  obtain ⟨c1, c2⟩ := Abort_coils bus s
  have hs := Abort_DomeMotionSP_s bus s
  have ht := (Abort_frame bus s).1
  simp only [hclr, and_true] at c1 c2 hs
  refine ⟨?_, ht⟩
  unfold coilInv
  rw [c1, c2, hs, ht]
  obtain ⟨i1, i2⟩ := hi
  by_cases hb : s.DomeMotionSP_s = .IPS_BUSY
  · simp [hb]
  · simp only [hb, if_false]
    exact ⟨i1, i2⟩

/-- With clearing writes acknowledged, a motion request through the wrapper keeps
the coil invariant. -/
theorem Dome_Move_coilInv (bus : Bus) (hclr : ∀ n a, bus.writeAt n a 0 = 1) (s : Dev)
    (dir : DomeDirection) (op : DomeMotionCommand) (hi : coilInv s) :
    coilInv (Dome_Move bus s dir op) ∧ (Dome_Move bus s dir op).TimeoutValue = s.TimeoutValue := by
  obtain ⟨p1, p2, p3, p4⟩ := Dome_Move_proj bus s dir op
  refine ⟨?_, p4⟩
  unfold coilInv
  rw [p1, p2, p3, p4]
  obtain ⟨i1, i2⟩ := hi
  by_cases h0 : s.TimeoutValue = 0
  · obtain ⟨z1, z2, z3, -⟩ := Move_zero_timeout bus s dir op h0
    rw [z2, z3]
    exact ⟨i1, fun h => absurd h0 h⟩
  · have habort : ∀ r : Dev × IPState,
        r = ((Abort bus (checkRoofStatus bus { s with MotionTimeFrame := s.TimeoutValue })).1,
          IPState.IPS_IDLE) →
        ¬ (r.1.coil8256 = true ∧ r.1.coil8257 = true) ∧
        (s.TimeoutValue ≠ 0 → r.2 ≠ .IPS_BUSY → r.1.coil8256 = false ∧ r.1.coil8257 = false) := by
      intro r hr
      obtain ⟨c1, c2⟩ := Abort_coils bus
        (checkRoofStatus bus { s with MotionTimeFrame := s.TimeoutValue })
      simp only [hclr, and_true, checkRoofStatus_DomeMotionSP_s, checkRoofStatus_coil8256,
        checkRoofStatus_coil8257] at c1 c2
      rw [hr]
      simp only [c1, c2]
      by_cases hb : s.DomeMotionSP_s = .IPS_BUSY
      · simp [hb]
      · have hcl := i2 h0 hb
        simp [hb, hcl]
    cases op
    · rcases Move_start_cases bus s dir with
        ⟨hr, -, -, -, c1, c2, hb, -⟩ | ⟨hr, -, -, c1, c2⟩ | ⟨hr, -, -, c1, c2⟩ |
        ⟨-, -, -, he⟩
      · obtain ⟨k1, k2⟩ := i2 h0 hb
        rw [hr, c1, c2, k1, k2]
        cases dir <;> simp
      · rw [hr, c1, c2]
        exact ⟨i1, fun _ _ => i2 h0 (by
          intro hb
          rw [(Move_busy bus s dir .MOTION_START h0 hb)] at hr
          simp at hr)⟩
      · rw [hr, c1, c2]
        exact ⟨i1, fun _ _ => i2 h0 (by
          intro hb
          rw [(Move_busy bus s dir .MOTION_START h0 hb)] at hr
          simp at hr)⟩
      · exact habort _ he
    · exact habort _ (Move_stop bus s dir h0)

theorem run_coilInv (bus : Bus) (hclr : ∀ n a, bus.writeAt n a 0 = 1) (calls : List Call) :
    ∀ s : Dev, coilInv s → coilInv (run bus s calls) := by
  induction calls with
  | nil => intro s hi; exact hi
  | cons c cs ih =>
    intro s hi
    have hstep : coilInv (step bus s c) := by
      cases c with
      | move dir op => exact (Dome_Move_coilInv bus hclr s dir op hi).1
      | abort => exact (Abort_coilInv bus hclr s hi).1
    exact ih _ hstep

/-- C1 as amended: from a state with both coils clear (in particular one with no
motion in progress), after every sequence of Move and Abort requests, whatever the
polls return, coil 8256 and coil 8257 are never both asserted, provided every coil
write the requests issue is acknowledged by the bus (a write that is not
acknowledged leaves the state of the coil unknown). -/
theorem coils_never_both_when_writes_acked (bus : Bus) (s : Dev) (calls : List Call)
    (hack : ∀ n a v, bus.writeAt n a v = 1)
    (h56 : s.coil8256 = false) (h57 : s.coil8257 = false) :
    ¬ ((run bus s calls).coil8256 = true ∧ (run bus s calls).coil8257 = true) := by
  have hi : coilInv s := by
    unfold coilInv
    rw [h56, h57]
    simp
  exact (run_coilInv bus (fun n a => hack n a 0) calls s hi).1

/-- C1 as amended, at a concrete input: on a fault-free link the sequence open,
close (taken as abort), close leaves only coil 8257 asserted. -/
theorem coils_never_both_when_writes_acked_witness :
    ¬ ((run (constBus readBetween 1) (initDev 60)
        [.move .DOME_CW .MOTION_START, .move .DOME_CCW .MOTION_START,
         .move .DOME_CCW .MOTION_START]).coil8256 = true ∧
       (run (constBus readBetween 1) (initDev 60)
        [.move .DOME_CW .MOTION_START, .move .DOME_CCW .MOTION_START,
         .move .DOME_CCW .MOTION_START]).coil8257 = true) :=
  coils_never_both_when_writes_acked (constBus readBetween 1) (initDev 60)
    [.move .DOME_CW .MOTION_START, .move .DOME_CCW .MOTION_START,
     .move .DOME_CCW .MOTION_START]
    (fun _ _ _ => rfl) rfl rfl

/-! ## The branches of `TimerHit` -/

theorem checkRoofStatus_msgs (bus : Bus) (s : Dev) :
    (checkRoofStatus bus s).msgs =
      s.msgs ++ (if (bus.readAt s.nRead).rc = 4 then [] else [.readError]) := by
  unfold checkRoofStatus
  simp only [Dev.log, SWITCH_ADDRESS_COUNT]
  split_ifs <;> simp

theorem motionDir_checkRoofStatus (bus : Bus) (s : Dev) :
    motionDir (checkRoofStatus bus s) = motionDir s := by
  simp [motionDir]

theorem motionDir_cases (s : Dev) :
    (motionDir s = some .DOME_CW ↔ s.DomeMotionS_CW = .ISS_ON) ∧
    (motionDir s = some .DOME_CCW ↔
      ¬ s.DomeMotionS_CW = .ISS_ON ∧ s.DomeMotionS_CCW = .ISS_ON) ∧
    (motionDir s = none ↔
      ¬ s.DomeMotionS_CW = .ISS_ON ∧ ¬ s.DomeMotionS_CCW = .ISS_ON) := by
  unfold motionDir
  split_ifs <;> simp_all

/-- A connected tick with no motion marked busy: poll, then re-arm at 300 s. -/
theorem TimerHit_idle (bus : Bus) (s : Dev) (hc : s.connected = true)
    (hb : s.DomeMotionSP_s ≠ .IPS_BUSY) :
    TimerHit bus s = { checkRoofStatus bus s with LoopID := some 300000 } := by
  have f5 : (checkRoofStatus bus s).DomeMotionSP_s ≠ .IPS_BUSY := by simpa using hb
  simp only [TimerHit, hc, Bool.not_true, Bool.false_eq_true, if_false]
  generalize checkRoofStatus bus s = s1 at *
  simp only [f5, if_false]

/-- A connected tick of a busy motion, target not flagged, countdown expired:
one warning, re-arm at 300 s, nothing else. -/
theorem TimerHit_expired (bus : Bus) (s : Dev) (dir : DomeDirection)
    (hc : s.connected = true) (hb : s.DomeMotionSP_s = .IPS_BUSY)
    (hd : motionDir s = some dir) (hnt : ¬ atTarget (checkRoofStatus bus s) dir)
    (hl : s.MotionTimeLeft ≤ 0) :
    TimerHit bus s =
      { (checkRoofStatus bus s).log (timeoutMsg dir) with LoopID := some 300000 } := by
  have f5 : (checkRoofStatus bus s).DomeMotionSP_s = .IPS_BUSY := by simpa using hb
  have f6 : motionDir (checkRoofStatus bus s) = some dir := by
    rw [motionDir_checkRoofStatus]; exact hd
  have f7 : (checkRoofStatus bus s).MotionTimeLeft ≤ 0 := by simpa using hl
  simp only [TimerHit, hc, Bool.not_true, Bool.false_eq_true, if_false]
  generalize checkRoofStatus bus s = s1 at *
  cases dir
  · have hcw : s1.DomeMotionS_CW = .ISS_ON := (motionDir_cases s1).1.1 f6
    simp only [atTarget] at hnt
    simp only [f5, hcw, hnt, f7, if_true, if_false, timeoutMsg]
  · obtain ⟨hcw, hccw⟩ := (motionDir_cases s1).2.1.1 f6
    simp only [atTarget] at hnt
    simp only [f5, hcw, hccw, hnt, f7, if_true, if_false, timeoutMsg]

/-- A connected tick of a busy motion, target not flagged, countdown running:
one second off the countdown, re-arm at 1000 ms, nothing else. -/
theorem TimerHit_countdown (bus : Bus) (s : Dev) (dir : DomeDirection)
    (hc : s.connected = true) (hb : s.DomeMotionSP_s = .IPS_BUSY)
    (hd : motionDir s = some dir) (hnt : ¬ atTarget (checkRoofStatus bus s) dir)
    (hl : 0 < s.MotionTimeLeft) :
    TimerHit bus s =
      { checkRoofStatus bus s with MotionTimeLeft := s.MotionTimeLeft - 1,
                                   LoopID := some 1000 } := by
  have f5 : (checkRoofStatus bus s).DomeMotionSP_s = .IPS_BUSY := by simpa using hb
  have f6 : motionDir (checkRoofStatus bus s) = some dir := by
    rw [motionDir_checkRoofStatus]; exact hd
  have f7 : ¬ (checkRoofStatus bus s).MotionTimeLeft ≤ 0 := by simpa using hl
  have f8 : (checkRoofStatus bus s).MotionTimeLeft = s.MotionTimeLeft := by simp
  simp only [TimerHit, hc, Bool.not_true, Bool.false_eq_true, if_false]
  generalize checkRoofStatus bus s = s1 at *
  cases dir
  · have hcw : s1.DomeMotionS_CW = .ISS_ON := (motionDir_cases s1).1.1 f6
    simp only [atTarget] at hnt
    simp only [f5, hcw, hnt, f7, if_true, if_false]
    rw [f8]
  · obtain ⟨hcw, hccw⟩ := (motionDir_cases s1).2.1.1 f6
    simp only [atTarget] at hnt
    simp only [f5, hcw, hccw, hnt, f7, if_true, if_false]
    rw [f8]

/-- A connected tick of a busy motion with the target flagged on both panels:
countdown zeroed, coils cleared, park state set, motion property IPS_OK, re-arm at
300 s. -/
theorem TimerHit_done (bus : Bus) (s : Dev) (dir : DomeDirection)
    (hc : s.connected = true) (hb : s.DomeMotionSP_s = .IPS_BUSY)
    (hd : motionDir s = some dir) (ht : atTarget (checkRoofStatus bus s) dir) :
    TimerHit bus s =
      { SetParked (clearFlags bus
          { (checkRoofStatus bus s).log (doneMsg dir) with MotionTimeLeft := 0 }).1
          (parkedOf dir) with DomeMotionSP_s := .IPS_OK, LoopID := some 300000 } := by
  have f5 : (checkRoofStatus bus s).DomeMotionSP_s = .IPS_BUSY := by simpa using hb
  have f6 : motionDir (checkRoofStatus bus s) = some dir := by
    rw [motionDir_checkRoofStatus]; exact hd
  simp only [TimerHit, hc, Bool.not_true, Bool.false_eq_true, if_false]
  generalize checkRoofStatus bus s = s1 at *
  cases dir
  · have hcw : s1.DomeMotionS_CW = .ISS_ON := (motionDir_cases s1).1.1 f6
    simp only [atTarget] at ht
    simp only [f5, hcw, ht, and_self, if_true, doneMsg, parkedOf]
  · obtain ⟨hcw, hccw⟩ := (motionDir_cases s1).2.1.1 f6
    simp only [atTarget] at ht
    simp only [f5, hcw, hccw, ht, and_self, if_true, if_false, doneMsg, parkedOf]

/-- A connected tick of a motion marked busy with neither direction switch on:
coils cleared, dome state idle, re-arm at 300 s. -/
theorem TimerHit_nodir (bus : Bus) (s : Dev)
    (hc : s.connected = true) (hb : s.DomeMotionSP_s = .IPS_BUSY)
    (hd : motionDir s = none) :
    TimerHit bus s =
      { setDomeState (clearFlags bus (checkRoofStatus bus s)).1 .DOME_IDLE with
          LoopID := some 300000 } := by
  have f5 : (checkRoofStatus bus s).DomeMotionSP_s = .IPS_BUSY := by simpa using hb
  have f6 : motionDir (checkRoofStatus bus s) = none := by
    rw [motionDir_checkRoofStatus]; exact hd
  simp only [TimerHit, hc, Bool.not_true, Bool.false_eq_true, if_false]
  generalize checkRoofStatus bus s = s1 at *
  obtain ⟨hcw, hccw⟩ := (motionDir_cases s1).2.2.1 f6
  simp only [f5, hcw, hccw, if_true, if_false]

/-- When a full read does not show the target (and, for a closing, no stale closed
flag is in play), or when a failed read finds the remembered flags not at the
target, the flags after the poll are not both at the target. -/
theorem not_atTarget_of_poll (bus : Bus) (s : Dev) (dir : DomeDirection)
    (hpoll : ((bus.readAt s.nRead).rc = 4 ∧ ¬ pollShowsTarget (bus.readAt s.nRead) dir ∧
        (dir = .DOME_CCW → noStaleClosed (bus.readAt s.nRead) s)) ∨
      ((bus.readAt s.nRead).rc ≠ 4 ∧ ¬ atTarget s dir)) :
    ¬ atTarget (checkRoofStatus bus s) dir := by
  rcases hpoll with ⟨hrc, hns, hst⟩ | ⟨hrc, hnt⟩
  · obtain ⟨g1, g2, g3, g4⟩ := checkRoofStatus_flags_full bus s hrc
    cases dir
    · simp only [atTarget, g1, g2]
      simp only [pollShowsTarget, hrc, true_and] at hns
      cases h3 : (bus.readAt s.nRead).bit3 <;> cases h0 : (bus.readAt s.nRead).bit0 <;>
        simp_all [invert]
    · obtain ⟨hn, hs⟩ := hst rfl
      simp only [atTarget, g3, g4]
      simp only [pollShowsTarget, hrc, true_and] at hns
      cases h3 : (bus.readAt s.nRead).bit3 <;> cases h0 : (bus.readAt s.nRead).bit0 <;>
        cases h2 : (bus.readAt s.nRead).bit2 <;> cases h1 : (bus.readAt s.nRead).bit1 <;>
        simp_all [invert]
  · obtain ⟨h1, h2, h3, h4⟩ := checkRoofStatus_flags_fail bus s hrc
    cases dir <;> simp only [atTarget, h1, h2, h3, h4] <;> exact hnt

/-- C11 fails as stated, twice over. An opening with the countdown at 0 whose
poll fails (it shows no panel at the target) while the flags remembered from the
last successful poll are open: the tick declares success, clears the coils and
emits no timeout warning. A closing with the countdown at 0 whose poll reads both
panels open while closed flags are remembered from an earlier poll: the tick logs
"Roof is closed", ends the motion and emits no timeout warning. -/
theorem TimerHit_timeout_claim_counterexample :
    (¬ pollShowsTarget ((constBus readFault 1).readAt 0) .DOME_CW ∧
      ({ openingDev 60 0 with is_open_North := .ISS_ON, is_open_South := .ISS_ON }
        : Dev).MotionTimeLeft = 0 ∧
      motionDir { openingDev 60 0 with is_open_North := .ISS_ON, is_open_South := .ISS_ON }
        = some .DOME_CW ∧
      timeoutWarnings (newMsgs
        { openingDev 60 0 with is_open_North := .ISS_ON, is_open_South := .ISS_ON }
        (TimerHit (constBus readFault 1)
          { openingDev 60 0 with is_open_North := .ISS_ON, is_open_South := .ISS_ON })) = 0 ∧
      (TimerHit (constBus readFault 1)
        { openingDev 60 0 with is_open_North := .ISS_ON, is_open_South := .ISS_ON }).writes
          = [⟨8256, 0, 1⟩, ⟨8257, 0, 1⟩] ∧
      (TimerHit (constBus readFault 1)
        { openingDev 60 0 with is_open_North := .ISS_ON, is_open_South := .ISS_ON }
        ).DomeMotionSP_s = .IPS_OK) ∧
    (¬ pollShowsTarget ((constBus readOpen 1).readAt 0) .DOME_CCW ∧
      ({ closingDev 60 0 with is_closed_North := .ISS_ON, is_closed_South := .ISS_ON }
        : Dev).MotionTimeLeft = 0 ∧
      motionDir { closingDev 60 0 with is_closed_North := .ISS_ON, is_closed_South := .ISS_ON }
        = some .DOME_CCW ∧
      timeoutWarnings (newMsgs
        { closingDev 60 0 with is_closed_North := .ISS_ON, is_closed_South := .ISS_ON }
        (TimerHit (constBus readOpen 1)
          { closingDev 60 0 with is_closed_North := .ISS_ON, is_closed_South := .ISS_ON }))
          = 0 ∧
      .roofIsClosed ∈ newMsgs
        { closingDev 60 0 with is_closed_North := .ISS_ON, is_closed_South := .ISS_ON }
        (TimerHit (constBus readOpen 1)
          { closingDev 60 0 with is_closed_North := .ISS_ON, is_closed_South := .ISS_ON }) ∧
      (TimerHit (constBus readOpen 1)
        { closingDev 60 0 with is_closed_North := .ISS_ON, is_closed_South := .ISS_ON }
        ).DomeMotionSP_s = .IPS_OK) := by
  decide

/-- C11 as amended: a connected tick of an opening or closing whose countdown is
at 0 (or below) emits exactly one timeout warning, puts nothing on the bus, and
leaves the busy state, the direction switches, the coils and MotionTimeLeft as
they were, when its poll is a full read that does not show both panels at the
target (for a closing: and no panel whose open sensor reports open carries a
closed flag from an earlier poll), or when its poll fails and the flags remembered
from the last successful poll are not both at the target. -/
theorem TimerHit_timeout_no_abort (bus : Bus) (s : Dev) (dir : DomeDirection)
    (hc : s.connected = true) (hb : s.DomeMotionSP_s = .IPS_BUSY)
    (hd : motionDir s = some dir) (hl : s.MotionTimeLeft ≤ 0)
    (hpoll : ((bus.readAt s.nRead).rc = 4 ∧ ¬ pollShowsTarget (bus.readAt s.nRead) dir ∧
        (dir = .DOME_CCW → noStaleClosed (bus.readAt s.nRead) s)) ∨
      ((bus.readAt s.nRead).rc ≠ 4 ∧ ¬ atTarget s dir)) :
    timeoutWarnings (newMsgs s (TimerHit bus s)) = 1 ∧
    (TimerHit bus s).msgs.getLast? = some (timeoutMsg dir) ∧
    (TimerHit bus s).writes = s.writes ∧
    (TimerHit bus s).nWrite = s.nWrite ∧
    (TimerHit bus s).coil8256 = s.coil8256 ∧
    (TimerHit bus s).coil8257 = s.coil8257 ∧
    (TimerHit bus s).DomeMotionSP_s = .IPS_BUSY ∧
    (TimerHit bus s).DomeMotionS_CW = s.DomeMotionS_CW ∧
    (TimerHit bus s).DomeMotionS_CCW = s.DomeMotionS_CCW ∧
    motionDir (TimerHit bus s) = some dir ∧
    (TimerHit bus s).MotionTimeLeft = s.MotionTimeLeft := by
  have hnt := not_atTarget_of_poll bus s dir hpoll
  rw [TimerHit_expired bus s dir hc hb hd hnt hl]
  have hm : ((checkRoofStatus bus s).log (timeoutMsg dir)).msgs
      = s.msgs ++ ((if (bus.readAt s.nRead).rc = 4 then [] else [.readError])
          ++ [timeoutMsg dir]) := by
    show (checkRoofStatus bus s).msgs ++ [timeoutMsg dir] = _
    rw [checkRoofStatus_msgs, List.append_assoc]
  refine ⟨?_, ?_, by simp, by simp, by simp, by simp, by simpa using hb, by simp, by simp,
    ?_, by simp⟩
  · simp only [newMsgs, timeoutWarnings]
    rw [hm, List.drop_left]
    cases dir <;> split_ifs <;> simp [timeoutMsg]
  · show ((checkRoofStatus bus s).log (timeoutMsg dir)).msgs.getLast? = _
    rw [hm]
    split_ifs <;> simp
  · rw [← hd]
    simp [motionDir]

/-- C11 as amended, at a concrete input: opening, countdown at 0, roof read in
between. -/
theorem TimerHit_timeout_no_abort_witness :
    timeoutWarnings (newMsgs (openingDev 60 0)
      (TimerHit (constBus readBetween 1) (openingDev 60 0))) = 1 ∧
    (TimerHit (constBus readBetween 1) (openingDev 60 0)).writes = [] ∧
    (TimerHit (constBus readBetween 1) (openingDev 60 0)).coil8256 = true ∧
    (TimerHit (constBus readBetween 1) (openingDev 60 0)).DomeMotionSP_s = .IPS_BUSY ∧
    (TimerHit (constBus readBetween 1) (openingDev 60 0)).MotionTimeLeft = 0 :=
  have h := TimerHit_timeout_no_abort (constBus readBetween 1) (openingDev 60 0) .DOME_CW
    rfl rfl rfl (by decide) (Or.inl (by decide))
  ⟨h.1, h.2.2.1, h.2.2.2.2.1, h.2.2.2.2.2.2.1, h.2.2.2.2.2.2.2.2.2.2⟩

theorem TimerHit_not_connected (bus : Bus) (s : Dev) (hc : s.connected = false) :
    TimerHit bus s = s := by
  simp [TimerHit, hc]

theorem setDomeState_idle_not_busy (s : Dev) :
    (setDomeState s .DOME_IDLE).DomeMotionSP_s ≠ .IPS_BUSY := by
  simp only [setDomeState]
  split_ifs with h
  · simp
  · exact h

/-- C19 fails as stated, twice over. An opening with 5 s left whose poll fails
(it shows no panel at the target) while open flags are remembered: the tick takes
MotionTimeLeft from 5 to 0. And by requests only: a close is accepted with timeout
60, the first tick reads north closed / south in between (59 s left), the second
tick reads north open / south closed, so the roof is not closed, yet the tick
takes MotionTimeLeft from 59 to 0 and ends the motion. -/
theorem TimerHit_countdown_claim_counterexample :
    (¬ pollShowsTarget ((constBus readFault 1).readAt 0) .DOME_CW ∧
      motionDir { openingDev 60 5 with is_open_North := .ISS_ON, is_open_South := .ISS_ON }
        = some .DOME_CW ∧
      (TimerHit (constBus readFault 1)
        { openingDev 60 5 with is_open_North := .ISS_ON, is_open_South := .ISS_ON }
        ).MotionTimeLeft = 0) ∧
    ((Dome_Move busNorthReopens (initDev 60) .DOME_CCW .MOTION_START).DomeMotionSP_s
        = .IPS_BUSY ∧
      (TimerHit busNorthReopens
        (Dome_Move busNorthReopens (initDev 60) .DOME_CCW .MOTION_START)).MotionTimeLeft
          = 59 ∧
      (TimerHit busNorthReopens
        (Dome_Move busNorthReopens (initDev 60) .DOME_CCW .MOTION_START)).DomeMotionSP_s
          = .IPS_BUSY ∧
      motionDir (TimerHit busNorthReopens
        (Dome_Move busNorthReopens (initDev 60) .DOME_CCW .MOTION_START))
          = some .DOME_CCW ∧
      ¬ pollShowsTarget (busNorthReopens.readAt (TimerHit busNorthReopens
        (Dome_Move busNorthReopens (initDev 60) .DOME_CCW .MOTION_START)).nRead) .DOME_CCW ∧
      (TimerHit busNorthReopens (TimerHit busNorthReopens
        (Dome_Move busNorthReopens (initDev 60) .DOME_CCW .MOTION_START))).MotionTimeLeft
          = 0 ∧
      (TimerHit busNorthReopens (TimerHit busNorthReopens
        (Dome_Move busNorthReopens (initDev 60) .DOME_CCW .MOTION_START))).DomeMotionSP_s
          = .IPS_OK) := by
  decide

/-- C19 as amended: while the roof is opening or closing, a connected tick with
MotionTimeLeft > 0 takes exactly 1 off MotionTimeLeft when its poll is a full read
that does not show both panels at the target (for a closing: and no panel whose
open sensor reports open carries a closed flag from an earlier poll), or when its
poll fails and the flags remembered from the last successful poll are not both at
the target; and no tick, in any state and whatever the bus does, takes
MotionTimeLeft from a non-negative value to a negative one. -/
theorem TimerHit_countdown_clamped (bus : Bus) (s : Dev) :
    (∀ dir, s.connected = true → s.DomeMotionSP_s = .IPS_BUSY → motionDir s = some dir →
      (((bus.readAt s.nRead).rc = 4 ∧ ¬ pollShowsTarget (bus.readAt s.nRead) dir ∧
          (dir = .DOME_CCW → noStaleClosed (bus.readAt s.nRead) s)) ∨
        ((bus.readAt s.nRead).rc ≠ 4 ∧ ¬ atTarget s dir)) →
      0 < s.MotionTimeLeft →
      (TimerHit bus s).MotionTimeLeft = s.MotionTimeLeft - 1) ∧
    (0 ≤ s.MotionTimeLeft → 0 ≤ (TimerHit bus s).MotionTimeLeft) := by
  constructor
  · intro dir hc hb hd hpoll hl
    have hnt := not_atTarget_of_poll bus s dir hpoll
    rw [TimerHit_countdown bus s dir hc hb hd hnt hl]
  · intro h0
    cases hc : s.connected
    · rw [TimerHit_not_connected bus s hc]; exact h0
    · by_cases hb : s.DomeMotionSP_s = .IPS_BUSY
      · cases hd : motionDir s with
        | none =>
          rw [TimerHit_nodir bus s hc hb hd]
          simpa using h0
        | some dir =>
          by_cases ht : atTarget (checkRoofStatus bus s) dir
          · rw [TimerHit_done bus s dir hc hb hd ht]
            simp
          · by_cases hl : s.MotionTimeLeft ≤ 0
            · rw [TimerHit_expired bus s dir hc hb hd ht hl]
              simpa using h0
            · have hl2 : 0 < s.MotionTimeLeft := by omega
              rw [TimerHit_countdown bus s dir hc hb hd ht hl2]
              show 0 ≤ s.MotionTimeLeft - 1
              omega
      · rw [TimerHit_idle bus s hc hb]
        simpa using h0

/-- C19 as amended, at a concrete input: opening with 5 s left, roof read in
between: 4 s left after the tick; opening with 0 s left: still 0 after the tick. -/
theorem TimerHit_countdown_clamped_witness :
    (TimerHit (constBus readBetween 1) (openingDev 60 5)).MotionTimeLeft = 5 - 1 ∧
    0 ≤ (TimerHit (constBus readBetween 1) (openingDev 60 0)).MotionTimeLeft :=
  ⟨(TimerHit_countdown_clamped (constBus readBetween 1) (openingDev 60 5)).1 .DOME_CW
      rfl rfl rfl (Or.inl (by decide)) (by decide),
   (TimerHit_countdown_clamped (constBus readBetween 1) (openingDev 60 0)).2 (by decide)⟩

/-- C20 fails as stated: an opening whose countdown has expired is still busy and
still opening after the tick (roof read in between), yet the tick re-arms itself
at 300 s, not at 1000 ms. -/
theorem TimerHit_busy_slow_cadence_counterexample :
    (openingDev 60 0).connected = true ∧
    (TimerHit (constBus readBetween 1) (openingDev 60 0)).DomeMotionSP_s = .IPS_BUSY ∧
    motionDir (TimerHit (constBus readBetween 1) (openingDev 60 0)) = some .DOME_CW ∧
    (TimerHit (constBus readBetween 1) (openingDev 60 0)).coil8256 = true ∧
    (TimerHit (constBus readBetween 1) (openingDev 60 0)).LoopID = some 300000 := by
  decide

/-- C20 as amended: at the end of every connected tick TimerHit re-arms itself at
300 s when no motion is busy after the tick, and, when a motion is still busy
after the tick, at 1000 ms if the countdown was still running (MotionTimeLeft > 0
before the tick) and at 300 s if it had expired. -/
theorem TimerHit_cadence (bus : Bus) (s : Dev) (hc : s.connected = true) :
    ((TimerHit bus s).DomeMotionSP_s ≠ .IPS_BUSY →
      (TimerHit bus s).LoopID = some 300000) ∧
    ((TimerHit bus s).DomeMotionSP_s = .IPS_BUSY →
      (TimerHit bus s).LoopID = some (if 0 < s.MotionTimeLeft then 1000 else 300000)) := by
  by_cases hb : s.DomeMotionSP_s = .IPS_BUSY
  · cases hd : motionDir s with
    | none =>
      rw [TimerHit_nodir bus s hc hb hd]
      refine ⟨fun _ => rfl, fun h => absurd h ?_⟩
      exact setDomeState_idle_not_busy _
    | some dir =>
      by_cases ht : atTarget (checkRoofStatus bus s) dir
      · rw [TimerHit_done bus s dir hc hb hd ht]
        exact ⟨fun _ => rfl, fun h => absurd h (by simp)⟩
      · by_cases hl : s.MotionTimeLeft ≤ 0
        · rw [TimerHit_expired bus s dir hc hb hd ht hl]
          have hl2 : ¬ 0 < s.MotionTimeLeft := by omega
          refine ⟨fun _ => rfl, fun _ => ?_⟩
          rw [if_neg hl2]
        · have hl2 : 0 < s.MotionTimeLeft := by omega
          rw [TimerHit_countdown bus s dir hc hb hd ht hl2]
          refine ⟨fun h => absurd ?_ h, fun _ => ?_⟩
          · simpa using hb
          · rw [if_pos hl2]
  · rw [TimerHit_idle bus s hc hb]
    refine ⟨fun _ => rfl, fun h => absurd ?_ hb⟩
    simpa using h

/-- C20 as amended, at a concrete input: opening with 5 s left and the roof in
between re-arms at 1000 ms; an idle driver re-arms at 300 s. -/
theorem TimerHit_cadence_witness :
    (TimerHit (constBus readBetween 1) (openingDev 60 5)).LoopID = some 1000 ∧
    (TimerHit (constBus readBetween 1) (initDev 60)).LoopID = some 300000 :=
  ⟨(TimerHit_cadence (constBus readBetween 1) (openingDev 60 5) rfl).2 (by decide),
   (TimerHit_cadence (constBus readBetween 1) (initDev 60) rfl).1 (by decide)⟩

/-! ## The branches of `Abort` -/

/-- `Abort` with no motion busy and both panels flagged closed: one log line, no
other effect than the poll. -/
theorem Abort_idle_closed (bus : Bus) (s : Dev) (hb : s.DomeMotionSP_s ≠ .IPS_BUSY)
    (hcl : atTarget (checkRoofStatus bus s) .DOME_CCW) :
    Abort bus s = ((checkRoofStatus bus s).log .closedStationary, true) := by
  have f5 : (checkRoofStatus bus s).DomeMotionSP_s ≠ .IPS_BUSY := by simpa using hb
  simp only [Abort]
  generalize checkRoofStatus bus s = s1 at *
  simp only [atTarget] at hcl
  simp [hcl.1, hcl.2, f5]

/-- `Abort` with no motion busy and the flags neither both open nor both closed:
one log line and the park switch reset, no bus write. -/
theorem Abort_idle_between (bus : Bus) (s : Dev) (hb : s.DomeMotionSP_s ≠ .IPS_BUSY)
    (hop : ¬ atTarget (checkRoofStatus bus s) .DOME_CW)
    (hcl : ¬ atTarget (checkRoofStatus bus s) .DOME_CCW) :
    Abort bus s =
      ({ (checkRoofStatus bus s).log .partlyStationary with
          ParkS_PARK := .ISS_OFF, ParkS_UNPARK := .ISS_OFF, ParkSP_s := .IPS_IDLE }, true) := by
  have f5 : (checkRoofStatus bus s).DomeMotionSP_s ≠ .IPS_BUSY := by simpa using hb
  simp only [Abort]
  generalize checkRoofStatus bus s = s1 at *
  simp only [atTarget] at hcl hop
  have ho : (decide (s1.is_open_North = .ISS_ON) && decide (s1.is_open_South = .ISS_ON))
      = false := by
    simpa using hop
  have hc : (decide (s1.is_closed_North = .ISS_ON) && decide (s1.is_closed_South = .ISS_ON))
      = false := by
    simpa using hcl
  simp [ho, hc, f5]

theorem atTarget_closed_of_read (bus : Bus) (s : Dev)
    (h : readsClosed (bus.readAt s.nRead)) : atTarget (checkRoofStatus bus s) .DOME_CCW := by
  obtain ⟨hrc, h3, h0, h2, h1⟩ := h
  obtain ⟨-, -, g3, g4⟩ := checkRoofStatus_flags_full bus s hrc
  rw [h3, h2] at g3
  rw [h0, h1] at g4
  exact ⟨g3, g4⟩

/-- C12: Abort called twice in a row while no motion is busy and every poll reads
both panels closed returns true both times (each time with the line "closed and
stationary, no action taken"), puts nothing on the bus in total and leaves the
motion state (motion property, direction switches, countdown, coils) unchanged. -/
theorem Abort_twice_idle_closed (bus : Bus) (s : Dev)
    (hidle : s.DomeMotionSP_s ≠ .IPS_BUSY) (hcl : ∀ n, readsClosed (bus.readAt n)) :
    (Abort bus s).2 = true ∧ (Abort bus (Abort bus s).1).2 = true ∧
    newMsgs s (Abort bus (Abort bus s).1).1 = [.closedStationary, .closedStationary] ∧
    (Abort bus (Abort bus s).1).1.writes = s.writes ∧
    (Abort bus (Abort bus s).1).1.nWrite = s.nWrite ∧
    (Abort bus (Abort bus s).1).1.coil8256 = s.coil8256 ∧
    (Abort bus (Abort bus s).1).1.coil8257 = s.coil8257 ∧
    (Abort bus (Abort bus s).1).1.DomeMotionSP_s = s.DomeMotionSP_s ∧
    (Abort bus (Abort bus s).1).1.DomeMotionS_CW = s.DomeMotionS_CW ∧
    (Abort bus (Abort bus s).1).1.DomeMotionS_CCW = s.DomeMotionS_CCW ∧
    (Abort bus (Abort bus s).1).1.MotionTimeLeft = s.MotionTimeLeft := by
  have e1 := Abort_idle_closed bus s hidle (atTarget_closed_of_read bus s (hcl _))
  have hidle2 : ((checkRoofStatus bus s).log .closedStationary).DomeMotionSP_s
      ≠ .IPS_BUSY := by
    simpa using hidle
  have e2 := Abort_idle_closed bus _ hidle2 (atTarget_closed_of_read bus _ (hcl _))
  rw [e1]
  simp only
  rw [e2]
  have hm : (((checkRoofStatus bus
      ((checkRoofStatus bus s).log .closedStationary)).log .closedStationary)).msgs
        = s.msgs ++ [.closedStationary, .closedStationary] := by
    show (checkRoofStatus bus _).msgs ++ [LogMsg.closedStationary] = _
    rw [checkRoofStatus_msgs]
    show (((checkRoofStatus bus s).msgs ++ [LogMsg.closedStationary]) ++ _) ++ _ = _
    rw [checkRoofStatus_msgs]
    have r1 := (hcl s.nRead).1
    have r2 := (hcl (s.nRead + 1)).1
    simp [r1, r2]
  refine ⟨trivial, rfl, ?_, by simp, by simp, by simp, by simp, by simp, by simp, by simp,
    by simp⟩
  simp only [newMsgs]
  rw [hm, List.drop_left]

/-- C12 at a concrete input: idle driver, timeout 60, every poll reads closed. -/
theorem Abort_twice_idle_closed_witness :
    (Abort (constBus readClosed 1) (initDev 60)).2 = true ∧
    (Abort (constBus readClosed 1) (Abort (constBus readClosed 1) (initDev 60)).1).2 = true ∧
    (Abort (constBus readClosed 1) (Abort (constBus readClosed 1) (initDev 60)).1).1.writes
      = [] :=
  have h := Abort_twice_idle_closed (constBus readClosed 1) (initDev 60) (by decide)
    (fun _ => ⟨rfl, rfl, rfl, rfl, rfl⟩)
  ⟨h.1, h.2.1, h.2.2.2.1⟩

/-- C13, the code when a clearing write fails during a busy motion: with an
opening in progress and no write acknowledged, Abort records the error state and
leaves coil 8256 asserted and the motion busy, yet returns true; Move, which maps
a false result of Abort to IPS_ALERT, therefore answers IPS_IDLE. -/
theorem Abort_clear_failure_returns_true :
    (openingDev 60 30).DomeMotionSP_s = .IPS_BUSY ∧
    (Abort (constBus readBetween (-1)) (openingDev 60 30)).1.writes = [⟨8256, 0, -1⟩] ∧
    (Abort (constBus readBetween (-1)) (openingDev 60 30)).1.m_DomeState = .DOME_ERROR ∧
    (Abort (constBus readBetween (-1)) (openingDev 60 30)).1.coil8256 = true ∧
    (Abort (constBus readBetween (-1)) (openingDev 60 30)).1.DomeMotionSP_s = .IPS_BUSY ∧
    (Abort (constBus readBetween (-1)) (openingDev 60 30)).2 = true ∧
    (Move (constBus readBetween (-1)) (openingDev 60 30) .DOME_CW .MOTION_STOP).2
      = .IPS_IDLE := by
  decide

/-- C14 fails as stated: an idle driver whose poll reads the roof in between
(neither both open nor both closed) puts nothing on the bus in Abort. -/
theorem Abort_idle_partial_writes_nothing_counterexample :
    (initDev 60).DomeMotionSP_s ≠ .IPS_BUSY ∧
    ¬ atTarget (checkRoofStatus (constBus readBetween 1) (initDev 60)) .DOME_CW ∧
    ¬ atTarget (checkRoofStatus (constBus readBetween 1) (initDev 60)) .DOME_CCW ∧
    (Abort (constBus readBetween 1) (initDev 60)).1.writes = [] ∧
    (Abort (constBus readBetween 1) (initDev 60)).1.nWrite = 0 := by
  decide

/-- C14 as amended: when no motion is busy, whatever the poll shows (in
particular the panels neither both open nor both closed), Abort issues no coil
write: it puts nothing on the bus, leaves both coils as they are and returns true.
The coil-clearing writes are issued only when a motion is busy. -/
theorem Abort_idle_no_write (bus : Bus) (s : Dev)
    (hidle : s.DomeMotionSP_s ≠ .IPS_BUSY) :
    (Abort bus s).1.writes = s.writes ∧
    newWrites s (Abort bus s).1 = [] ∧
    (Abort bus s).1.nWrite = s.nWrite ∧
    (Abort bus s).1.coil8256 = s.coil8256 ∧
    (Abort bus s).1.coil8257 = s.coil8257 ∧
    (Abort bus s).2 = true := by
  have hw : (Abort bus s).1.writes = s.writes := by
    rw [Abort_writes, if_neg hidle]
  obtain ⟨c1, c2⟩ := Abort_coils bus s
  have hn : (Abort bus s).1.nWrite = s.nWrite := by
    unfold Abort
    dsimp only
    have f5 : (checkRoofStatus bus s).DomeMotionSP_s ≠ .IPS_BUSY := by simpa using hidle
    split_ifs <;> simp
  refine ⟨hw, ?_, hn, ?_, ?_, Abort_result bus s⟩
  · simp [newWrites, hw]
  · rw [c1]; simp [hidle]
  · rw [c2]; simp [hidle]

/-- C14 as amended, at a concrete input: idle driver, roof read in between. -/
theorem Abort_idle_no_write_witness :
    (Abort (constBus readBetween 1) (initDev 60)).1.writes = [] ∧
    (Abort (constBus readBetween 1) (initDev 60)).1.coil8256 = false ∧
    (Abort (constBus readBetween 1) (initDev 60)).2 = true :=
  have h := Abort_idle_no_write (constBus readBetween 1) (initDev 60) (by decide)
  ⟨h.1, h.2.2.2.1, h.2.2.2.2.2⟩

/-! ## Frame facts for lights and park switch -/

@[simp]
theorem log_RoofStatusL_North_OPENED (s : Dev) (m : LogMsg) : (s.log m).RoofStatusL_North_OPENED = s.RoofStatusL_North_OPENED := rfl

@[simp]
theorem log_RoofStatusL_North_CLOSED (s : Dev) (m : LogMsg) : (s.log m).RoofStatusL_North_CLOSED = s.RoofStatusL_North_CLOSED := rfl

@[simp]
theorem log_RoofStatusLP_North_s (s : Dev) (m : LogMsg) : (s.log m).RoofStatusLP_North_s = s.RoofStatusLP_North_s := rfl

@[simp]
theorem log_RoofStatusL_South_OPENED (s : Dev) (m : LogMsg) : (s.log m).RoofStatusL_South_OPENED = s.RoofStatusL_South_OPENED := rfl

@[simp]
theorem log_RoofStatusL_South_CLOSED (s : Dev) (m : LogMsg) : (s.log m).RoofStatusL_South_CLOSED = s.RoofStatusL_South_CLOSED := rfl

@[simp]
theorem log_RoofStatusLP_South_s (s : Dev) (m : LogMsg) : (s.log m).RoofStatusLP_South_s = s.RoofStatusLP_South_s := rfl

@[simp]
theorem log_ParkSP_s (s : Dev) (m : LogMsg) : (s.log m).ParkSP_s = s.ParkSP_s := rfl

@[simp]
theorem log_ParkS_PARK (s : Dev) (m : LogMsg) : (s.log m).ParkS_PARK = s.ParkS_PARK := rfl

@[simp]
theorem log_ParkS_UNPARK (s : Dev) (m : LogMsg) : (s.log m).ParkS_UNPARK = s.ParkS_UNPARK := rfl

@[simp]
theorem log_m_DomeState (s : Dev) (m : LogMsg) : (s.log m).m_DomeState = s.m_DomeState := rfl

@[simp]
theorem storeCoil_RoofStatusL_North_OPENED (s : Dev) (a v : Int) : (s.storeCoil a v).RoofStatusL_North_OPENED = s.RoofStatusL_North_OPENED := by
  unfold Dev.storeCoil; split_ifs <;> rfl

@[simp]
theorem storeCoil_RoofStatusL_North_CLOSED (s : Dev) (a v : Int) : (s.storeCoil a v).RoofStatusL_North_CLOSED = s.RoofStatusL_North_CLOSED := by
  unfold Dev.storeCoil; split_ifs <;> rfl

@[simp]
theorem storeCoil_RoofStatusLP_North_s (s : Dev) (a v : Int) : (s.storeCoil a v).RoofStatusLP_North_s = s.RoofStatusLP_North_s := by
  unfold Dev.storeCoil; split_ifs <;> rfl

@[simp]
theorem storeCoil_RoofStatusL_South_OPENED (s : Dev) (a v : Int) : (s.storeCoil a v).RoofStatusL_South_OPENED = s.RoofStatusL_South_OPENED := by
  unfold Dev.storeCoil; split_ifs <;> rfl

@[simp]
theorem storeCoil_RoofStatusL_South_CLOSED (s : Dev) (a v : Int) : (s.storeCoil a v).RoofStatusL_South_CLOSED = s.RoofStatusL_South_CLOSED := by
  unfold Dev.storeCoil; split_ifs <;> rfl

@[simp]
theorem storeCoil_RoofStatusLP_South_s (s : Dev) (a v : Int) : (s.storeCoil a v).RoofStatusLP_South_s = s.RoofStatusLP_South_s := by
  unfold Dev.storeCoil; split_ifs <;> rfl

@[simp]
theorem storeCoil_ParkSP_s (s : Dev) (a v : Int) : (s.storeCoil a v).ParkSP_s = s.ParkSP_s := by
  unfold Dev.storeCoil; split_ifs <;> rfl

@[simp]
theorem storeCoil_ParkS_PARK (s : Dev) (a v : Int) : (s.storeCoil a v).ParkS_PARK = s.ParkS_PARK := by
  unfold Dev.storeCoil; split_ifs <;> rfl

@[simp]
theorem storeCoil_ParkS_UNPARK (s : Dev) (a v : Int) : (s.storeCoil a v).ParkS_UNPARK = s.ParkS_UNPARK := by
  unfold Dev.storeCoil; split_ifs <;> rfl

@[simp]
theorem storeCoil_m_DomeState (s : Dev) (a v : Int) : (s.storeCoil a v).m_DomeState = s.m_DomeState := by
  unfold Dev.storeCoil; split_ifs <;> rfl

@[simp]
theorem setFlag_RoofStatusL_North_OPENED (bus : Bus) (s : Dev) (a v : Int) :
    (setFlag bus s a v).1.RoofStatusL_North_OPENED = s.RoofStatusL_North_OPENED := by
  unfold setFlag; dsimp only; split_ifs <;> simp

@[simp]
theorem setFlag_RoofStatusL_North_CLOSED (bus : Bus) (s : Dev) (a v : Int) :
    (setFlag bus s a v).1.RoofStatusL_North_CLOSED = s.RoofStatusL_North_CLOSED := by
  unfold setFlag; dsimp only; split_ifs <;> simp

@[simp]
theorem setFlag_RoofStatusLP_North_s (bus : Bus) (s : Dev) (a v : Int) :
    (setFlag bus s a v).1.RoofStatusLP_North_s = s.RoofStatusLP_North_s := by
  unfold setFlag; dsimp only; split_ifs <;> simp

@[simp]
theorem setFlag_RoofStatusL_South_OPENED (bus : Bus) (s : Dev) (a v : Int) :
    (setFlag bus s a v).1.RoofStatusL_South_OPENED = s.RoofStatusL_South_OPENED := by
  unfold setFlag; dsimp only; split_ifs <;> simp

@[simp]
theorem setFlag_RoofStatusL_South_CLOSED (bus : Bus) (s : Dev) (a v : Int) :
    (setFlag bus s a v).1.RoofStatusL_South_CLOSED = s.RoofStatusL_South_CLOSED := by
  unfold setFlag; dsimp only; split_ifs <;> simp

@[simp]
theorem setFlag_RoofStatusLP_South_s (bus : Bus) (s : Dev) (a v : Int) :
    (setFlag bus s a v).1.RoofStatusLP_South_s = s.RoofStatusLP_South_s := by
  unfold setFlag; dsimp only; split_ifs <;> simp

@[simp]
theorem setFlag_ParkSP_s (bus : Bus) (s : Dev) (a v : Int) :
    (setFlag bus s a v).1.ParkSP_s = s.ParkSP_s := by
  unfold setFlag; dsimp only; split_ifs <;> simp

@[simp]
theorem setFlag_ParkS_PARK (bus : Bus) (s : Dev) (a v : Int) :
    (setFlag bus s a v).1.ParkS_PARK = s.ParkS_PARK := by
  unfold setFlag; dsimp only; split_ifs <;> simp

@[simp]
theorem setFlag_ParkS_UNPARK (bus : Bus) (s : Dev) (a v : Int) :
    (setFlag bus s a v).1.ParkS_UNPARK = s.ParkS_UNPARK := by
  unfold setFlag; dsimp only; split_ifs <;> simp

@[simp]
theorem setFlag_m_DomeState (bus : Bus) (s : Dev) (a v : Int) :
    (setFlag bus s a v).1.m_DomeState = s.m_DomeState := by
  unfold setFlag; dsimp only; split_ifs <;> simp

@[simp]
theorem clearFlags_RoofStatusL_North_OPENED (bus : Bus) (s : Dev) :
    (clearFlags bus s).1.RoofStatusL_North_OPENED = s.RoofStatusL_North_OPENED := by
  unfold clearFlags; dsimp only; split_ifs <;> simp

@[simp]
theorem clearFlags_RoofStatusL_North_CLOSED (bus : Bus) (s : Dev) :
    (clearFlags bus s).1.RoofStatusL_North_CLOSED = s.RoofStatusL_North_CLOSED := by
  unfold clearFlags; dsimp only; split_ifs <;> simp

@[simp]
theorem clearFlags_RoofStatusLP_North_s (bus : Bus) (s : Dev) :
    (clearFlags bus s).1.RoofStatusLP_North_s = s.RoofStatusLP_North_s := by
  unfold clearFlags; dsimp only; split_ifs <;> simp

@[simp]
theorem clearFlags_RoofStatusL_South_OPENED (bus : Bus) (s : Dev) :
    (clearFlags bus s).1.RoofStatusL_South_OPENED = s.RoofStatusL_South_OPENED := by
  unfold clearFlags; dsimp only; split_ifs <;> simp

@[simp]
theorem clearFlags_RoofStatusL_South_CLOSED (bus : Bus) (s : Dev) :
    (clearFlags bus s).1.RoofStatusL_South_CLOSED = s.RoofStatusL_South_CLOSED := by
  unfold clearFlags; dsimp only; split_ifs <;> simp

@[simp]
theorem clearFlags_RoofStatusLP_South_s (bus : Bus) (s : Dev) :
    (clearFlags bus s).1.RoofStatusLP_South_s = s.RoofStatusLP_South_s := by
  unfold clearFlags; dsimp only; split_ifs <;> simp

@[simp]
theorem clearFlags_ParkSP_s (bus : Bus) (s : Dev) :
    (clearFlags bus s).1.ParkSP_s = s.ParkSP_s := by
  unfold clearFlags; dsimp only; split_ifs <;> simp

@[simp]
theorem clearFlags_ParkS_PARK (bus : Bus) (s : Dev) :
    (clearFlags bus s).1.ParkS_PARK = s.ParkS_PARK := by
  unfold clearFlags; dsimp only; split_ifs <;> simp

@[simp]
theorem clearFlags_ParkS_UNPARK (bus : Bus) (s : Dev) :
    (clearFlags bus s).1.ParkS_UNPARK = s.ParkS_UNPARK := by
  unfold clearFlags; dsimp only; split_ifs <;> simp

@[simp]
theorem clearFlags_m_DomeState (bus : Bus) (s : Dev) :
    (clearFlags bus s).1.m_DomeState = s.m_DomeState := by
  unfold clearFlags; dsimp only; split_ifs <;> simp

@[simp]
theorem setDomeState_RoofStatusL_North_OPENED (s : Dev) (v : DomeState) :
    (setDomeState s v).RoofStatusL_North_OPENED = s.RoofStatusL_North_OPENED := by
  cases v <;> simp only [setDomeState] <;> split_ifs <;> rfl

@[simp]
theorem setDomeState_RoofStatusL_North_CLOSED (s : Dev) (v : DomeState) :
    (setDomeState s v).RoofStatusL_North_CLOSED = s.RoofStatusL_North_CLOSED := by
  cases v <;> simp only [setDomeState] <;> split_ifs <;> rfl

@[simp]
theorem setDomeState_RoofStatusLP_North_s (s : Dev) (v : DomeState) :
    (setDomeState s v).RoofStatusLP_North_s = s.RoofStatusLP_North_s := by
  cases v <;> simp only [setDomeState] <;> split_ifs <;> rfl

@[simp]
theorem setDomeState_RoofStatusL_South_OPENED (s : Dev) (v : DomeState) :
    (setDomeState s v).RoofStatusL_South_OPENED = s.RoofStatusL_South_OPENED := by
  cases v <;> simp only [setDomeState] <;> split_ifs <;> rfl

@[simp]
theorem setDomeState_RoofStatusL_South_CLOSED (s : Dev) (v : DomeState) :
    (setDomeState s v).RoofStatusL_South_CLOSED = s.RoofStatusL_South_CLOSED := by
  cases v <;> simp only [setDomeState] <;> split_ifs <;> rfl

@[simp]
theorem setDomeState_RoofStatusLP_South_s (s : Dev) (v : DomeState) :
    (setDomeState s v).RoofStatusLP_South_s = s.RoofStatusLP_South_s := by
  cases v <;> simp only [setDomeState] <;> split_ifs <;> rfl

@[simp]
theorem checkRoofStatus_ParkSP_s (bus : Bus) (s : Dev) :
    (checkRoofStatus bus s).ParkSP_s = s.ParkSP_s := by
  unfold checkRoofStatus
  simp only [Dev.log]
  split_ifs <;> rfl

@[simp]
theorem checkRoofStatus_ParkS_PARK (bus : Bus) (s : Dev) :
    (checkRoofStatus bus s).ParkS_PARK = s.ParkS_PARK := by
  unfold checkRoofStatus
  simp only [Dev.log]
  split_ifs <;> rfl

@[simp]
theorem checkRoofStatus_ParkS_UNPARK (bus : Bus) (s : Dev) :
    (checkRoofStatus bus s).ParkS_UNPARK = s.ParkS_UNPARK := by
  unfold checkRoofStatus
  simp only [Dev.log]
  split_ifs <;> rfl

@[simp]
theorem checkRoofStatus_m_DomeState (bus : Bus) (s : Dev) :
    (checkRoofStatus bus s).m_DomeState = s.m_DomeState := by
  unfold checkRoofStatus
  simp only [Dev.log]
  split_ifs <;> rfl

/-- Lights and flags after a poll are `pollSense` of the read and of the lights
and flags before. -/
theorem checkRoofStatus_senseOf (bus : Bus) (s : Dev) :
    senseOf (checkRoofStatus bus s) = pollSense (bus.readAt s.nRead) (senseOf s) := by
  unfold checkRoofStatus pollSense
  by_cases h : (bus.readAt s.nRead).rc = 4
  · cases h3 : (bus.readAt s.nRead).bit3 <;> cases h2 : (bus.readAt s.nRead).bit2 <;>
      cases h0 : (bus.readAt s.nRead).bit0 <;> cases h1 : (bus.readAt s.nRead).bit1 <;>
      simp [h, h0, h1, h2, h3, SWITCH_ADDRESS_COUNT, SWITCH_OPEN_NORTH, SWITCH_CLOSED_NORTH,
        SWITCH_OPEN_SOUTH, SWITCH_CLOSED_SOUTH, ReadResult.bits, invert, senseOf]
  · simp [h, SWITCH_ADDRESS_COUNT, senseOf, Dev.log]

/-- Polling twice with the same read result leaves what polling once leaves. -/
theorem pollSense_idem (r : ReadResult) (x : Sense) :
    pollSense r (pollSense r x) = pollSense r x := by
  unfold pollSense
  by_cases h : r.rc = 4
  · cases h3 : r.bit3 <;> cases h0 : r.bit0 <;> simp [h]
  · simp [h]

/-- `Abort` touches lights and flags only through its poll. -/
theorem Abort_senseOf (bus : Bus) (s : Dev) :
    senseOf (Abort bus s).1 = senseOf (checkRoofStatus bus s) := by
  unfold Abort
  dsimp only
  split_ifs <;> simp [senseOf]

/-- The direction switches after `Abort`: reset when a busy motion was stopped
with both coils cleared, else as before. -/
theorem Abort_switches (bus : Bus) (s : Dev) :
    (Abort bus s).1.DomeMotionS_CW =
      (if s.DomeMotionSP_s = .IPS_BUSY ∧ bus.writeAt s.nWrite 8256 0 = 1 ∧
          bus.writeAt (s.nWrite + 1) 8257 0 = 1 then .ISS_OFF
       else s.DomeMotionS_CW) ∧
    (Abort bus s).1.DomeMotionS_CCW =
      (if s.DomeMotionSP_s = .IPS_BUSY ∧ bus.writeAt s.nWrite 8256 0 = 1 ∧
          bus.writeAt (s.nWrite + 1) 8257 0 = 1 then .ISS_OFF
       else s.DomeMotionS_CCW) := by
  have hc := fun t => (clearFlags_effect bus t).1
  unfold Abort
  dsimp only
  by_cases hb : s.DomeMotionSP_s = .IPS_BUSY
  · simp only [checkRoofStatus_DomeMotionSP_s, hb]
    split_ifs <;> simp_all [setDomeState]
  · simp only [checkRoofStatus_DomeMotionSP_s, hb]
    split_ifs <;> simp_all [setDomeState]

/-- C15: Abort is idempotent. On a link whose behaviour is fixed (every poll
returns the same result, every write of a given value to a given coil has the
same outcome), running Abort twice leaves the same panel status, lights, sensor
flags, motion state and coil values as running it once, from every state, and
both calls return the same result. -/
theorem Abort_idempotent (bus : Bus) (s : Dev)
    (hr : ∀ n m, bus.readAt n = bus.readAt m)
    (hw : ∀ n m a v, bus.writeAt n a v = bus.writeAt m a v) :
    observe (Abort bus (Abort bus s).1).1 = observe (Abort bus s).1 ∧
    (Abort bus (Abort bus s).1).2 = (Abort bus s).2 := by
  refine ⟨?_, by rw [Abort_result, Abort_result]⟩
  -- lights and flags
  have hs : senseOf (Abort bus (Abort bus s).1).1 = senseOf (Abort bus s).1 := by
    rw [Abort_senseOf bus (Abort bus s).1, checkRoofStatus_senseOf, Abort_senseOf bus s,
      checkRoofStatus_senseOf, hr (Abort bus s).1.nRead s.nRead, pollSense_idem]
  have hpn : panelNorth (Abort bus (Abort bus s).1).1 = panelNorth (Abort bus s).1 := by
    show lightStatus (senseOf _).lNO (senseOf _).lNC (senseOf _).lNP = _
    rw [hs]; rfl
  have hps : panelSouth (Abort bus (Abort bus s).1).1 = panelSouth (Abort bus s).1 := by
    show lightStatus (senseOf _).lSO (senseOf _).lSC (senseOf _).lSP = _
    rw [hs]; rfl
  -- motion state and coils
  have a1 := Abort_DomeMotionSP_s bus s
  obtain ⟨a2, a3⟩ := Abort_coils bus s
  obtain ⟨a4, a5⟩ := Abort_switches bus s
  have b1 := Abort_DomeMotionSP_s bus (Abort bus s).1
  obtain ⟨b2, b3⟩ := Abort_coils bus (Abort bus s).1
  obtain ⟨b4, b5⟩ := Abort_switches bus (Abort bus s).1
  have hmtl : (Abort bus (Abort bus s).1).1.MotionTimeLeft = (Abort bus s).1.MotionTimeLeft :=
    (Abort_frame bus (Abort bus s).1).2.2.1
  rw [hw (Abort bus s).1.nWrite 0] at b1 b2 b3 b4 b5
  rw [hw ((Abort bus s).1.nWrite + 1) 1] at b1 b3 b4 b5
  rw [hw s.nWrite 0] at a1 a2 a3 a4 a5
  rw [hw (s.nWrite + 1) 1] at a1 a3 a4 a5
  have hsp : (Abort bus (Abort bus s).1).1.DomeMotionSP_s = (Abort bus s).1.DomeMotionSP_s := by
    rw [b1]
    by_cases hb : s.DomeMotionSP_s = .IPS_BUSY <;>
      by_cases h0 : bus.writeAt 0 8256 0 = 1 <;>
      by_cases h1 : bus.writeAt 1 8257 0 = 1 <;> simp_all
  have h56 : (Abort bus (Abort bus s).1).1.coil8256 = (Abort bus s).1.coil8256 := by
    rw [b2]
    by_cases hb : s.DomeMotionSP_s = .IPS_BUSY <;>
      by_cases h0 : bus.writeAt 0 8256 0 = 1 <;>
      by_cases h1 : bus.writeAt 1 8257 0 = 1 <;> simp_all
  have h57 : (Abort bus (Abort bus s).1).1.coil8257 = (Abort bus s).1.coil8257 := by
    rw [b3]
    by_cases hb : s.DomeMotionSP_s = .IPS_BUSY <;>
      by_cases h0 : bus.writeAt 0 8256 0 = 1 <;>
      by_cases h1 : bus.writeAt 1 8257 0 = 1 <;> simp_all
  have hcw : (Abort bus (Abort bus s).1).1.DomeMotionS_CW = (Abort bus s).1.DomeMotionS_CW := by
    rw [b4]
    by_cases hb : s.DomeMotionSP_s = .IPS_BUSY <;>
      by_cases h0 : bus.writeAt 0 8256 0 = 1 <;>
      by_cases h1 : bus.writeAt 1 8257 0 = 1 <;> simp_all
  have hccw : (Abort bus (Abort bus s).1).1.DomeMotionS_CCW
      = (Abort bus s).1.DomeMotionS_CCW := by
    rw [b5]
    by_cases hb : s.DomeMotionSP_s = .IPS_BUSY <;>
      by_cases h0 : bus.writeAt 0 8256 0 = 1 <;>
      by_cases h1 : bus.writeAt 1 8257 0 = 1 <;> simp_all
  unfold observe
  rw [hpn, hps, hs, hsp, hcw, hccw, hmtl, h56, h57]

/-- C15 at a concrete input: an opening in progress, the roof read in between, on
a link that acknowledges no write: the second Abort leaves what the first left. -/
theorem Abort_idempotent_witness :
    observe (Abort (constBus readBetween (-1))
        (Abort (constBus readBetween (-1)) (openingDev 60 30)).1).1
      = observe (Abort (constBus readBetween (-1)) (openingDev 60 30)).1 ∧
    (Abort (constBus readBetween (-1))
        (Abort (constBus readBetween (-1)) (openingDev 60 30)).1).2
      = (Abort (constBus readBetween (-1)) (openingDev 60 30)).2 :=
  Abort_idempotent (constBus readBetween (-1)) (openingDev 60 30)
    (fun _ _ => rfl) (fun _ _ _ _ => rfl)

/-- C16, the code after two successful polls: the driver as constructed polls a
closed roof and then an open roof (both reads full); after the second poll the
lights show both panels open, but is_open_North and is_closed_North are both ON,
and so are is_open_South and is_closed_South: the closed flags of the first poll
were not refreshed. -/
theorem checkRoofStatus_open_and_closed_both_on :
    (busClosedThenOpen.readAt (checkRoofStatus busClosedThenOpen (initDev 60)).nRead).rc = 4 ∧
    panelNorth (checkRoofStatus busClosedThenOpen
      (checkRoofStatus busClosedThenOpen (initDev 60))) = .OPEN ∧
    panelSouth (checkRoofStatus busClosedThenOpen
      (checkRoofStatus busClosedThenOpen (initDev 60))) = .OPEN ∧
    (checkRoofStatus busClosedThenOpen
      (checkRoofStatus busClosedThenOpen (initDev 60))).is_open_North = .ISS_ON ∧
    (checkRoofStatus busClosedThenOpen
      (checkRoofStatus busClosedThenOpen (initDev 60))).is_closed_North = .ISS_ON ∧
    (checkRoofStatus busClosedThenOpen
      (checkRoofStatus busClosedThenOpen (initDev 60))).is_open_South = .ISS_ON ∧
    (checkRoofStatus busClosedThenOpen
      (checkRoofStatus busClosedThenOpen (initDev 60))).is_closed_South = .ISS_ON := by
  decide

/-- C17, the code on a close request for an open roof: after an idle tick that
polled the roof closed, the roof reads open on both panels; the driver is idle,
the timeout is 60, the lock is clear and every write would be acknowledged, yet
Move(DOME_CCW, MOTION_START) answers IPS_ALERT with "already fully closed" and
writes nothing, leaving coil 8257 clear. -/
theorem Move_close_refused_on_open_roof :
    (TimerHit busClosedThenOpen (initDev 60)).DomeMotionSP_s ≠ .IPS_BUSY ∧
    0 < (TimerHit busClosedThenOpen (initDev 60)).TimeoutValue ∧
    (TimerHit busClosedThenOpen (initDev 60)).locked = false ∧
    readsOpen (busClosedThenOpen.readAt (TimerHit busClosedThenOpen (initDev 60)).nRead) ∧
    (Move busClosedThenOpen (TimerHit busClosedThenOpen (initDev 60))
      .DOME_CCW .MOTION_START).2 = .IPS_ALERT ∧
    (Move busClosedThenOpen (TimerHit busClosedThenOpen (initDev 60))
      .DOME_CCW .MOTION_START).1.msgs.getLast? = some .alreadyClosed ∧
    (Move busClosedThenOpen (TimerHit busClosedThenOpen (initDev 60))
      .DOME_CCW .MOTION_START).1.writes = [] ∧
    (Move busClosedThenOpen (TimerHit busClosedThenOpen (initDev 60))
      .DOME_CCW .MOTION_START).1.coil8257 = false := by
  decide

/-- C18 fails as stated: an opening in progress whose flags, remembered from the
last successful poll, show both panels open; the tick's poll fails (return code
-1), and the tick declares the motion successful: "Roof is open", motion property
IPS_OK, roof marked unparked. -/
theorem TimerHit_failed_poll_success_counterexample :
    ((constBus readFault 1).readAt openingFlaggedOpen.nRead).rc < 4 ∧
    openingFlaggedOpen.DomeMotionSP_s = .IPS_BUSY ∧
    motionDir openingFlaggedOpen = some .DOME_CW ∧
    openingFlaggedOpen.ParkS_UNPARK = .ISS_OFF ∧
    .roofIsOpen ∈ newMsgs openingFlaggedOpen
      (TimerHit (constBus readFault 1) openingFlaggedOpen) ∧
    (TimerHit (constBus readFault 1) openingFlaggedOpen).DomeMotionSP_s = .IPS_OK ∧
    (TimerHit (constBus readFault 1) openingFlaggedOpen).ParkS_UNPARK = .ISS_ON ∧
    (TimerHit (constBus readFault 1) openingFlaggedOpen).IsParked = false := by
  decide

theorem atTarget_of_failed_read (bus : Bus) (s : Dev) (dir : DomeDirection)
    (h : (bus.readAt s.nRead).rc ≠ 4) :
    atTarget (checkRoofStatus bus s) dir ↔ atTarget s dir := by
  obtain ⟨h1, h2, h3, h4⟩ := checkRoofStatus_flags_fail bus s h
  cases dir <;> simp only [atTarget, h1, h2, h3, h4]

/-- C18 as amended: a connected tick of an opening or closing whose poll returns
fewer than 4 bits decides on the sensor flags remembered from the last successful
poll. When these do not show both panels at the target, the tick does not declare
success: the motion stays busy in its direction, the park state and park switch
are untouched and nothing is written to the bus. When they do, the tick declares
success as after a good poll (motion property IPS_OK, park state set, countdown
0). -/
theorem TimerHit_failed_poll_remembered_flags (bus : Bus) (s : Dev) (dir : DomeDirection)
    (hc : s.connected = true) (hb : s.DomeMotionSP_s = .IPS_BUSY)
    (hd : motionDir s = some dir) (hfail : (bus.readAt s.nRead).rc < 4) :
    (¬ atTarget s dir →
      (TimerHit bus s).DomeMotionSP_s = .IPS_BUSY ∧
      motionDir (TimerHit bus s) = some dir ∧
      (TimerHit bus s).IsParked = s.IsParked ∧
      (TimerHit bus s).ParkS_PARK = s.ParkS_PARK ∧
      (TimerHit bus s).ParkS_UNPARK = s.ParkS_UNPARK ∧
      (TimerHit bus s).ParkSP_s = s.ParkSP_s ∧
      (TimerHit bus s).writes = s.writes) ∧
    (atTarget s dir →
      (TimerHit bus s).DomeMotionSP_s = .IPS_OK ∧
      (TimerHit bus s).IsParked = parkedOf dir ∧
      (TimerHit bus s).MotionTimeLeft = 0) := by
  have hrc : (bus.readAt s.nRead).rc ≠ 4 := by omega
  have hat := atTarget_of_failed_read bus s dir hrc
  constructor
  · intro hnt
    have hnt1 : ¬ atTarget (checkRoofStatus bus s) dir := fun h => hnt (hat.1 h)
    have hdir : motionDir (checkRoofStatus bus s) = some dir := by
      rw [motionDir_checkRoofStatus]; exact hd
    by_cases hl : s.MotionTimeLeft ≤ 0
    · rw [TimerHit_expired bus s dir hc hb hd hnt1 hl]
      refine ⟨by simpa using hb, ?_, by simp, by simp, by simp, by simp, by simp⟩
      rw [← hdir]; rfl
    · have hl2 : 0 < s.MotionTimeLeft := by omega
      rw [TimerHit_countdown bus s dir hc hb hd hnt1 hl2]
      refine ⟨by simpa using hb, ?_, by simp, by simp, by simp, by simp, by simp⟩
      rw [← hdir]; rfl
  · intro ht
    rw [TimerHit_done bus s dir hc hb hd (hat.2 ht)]
    refine ⟨rfl, ?_, ?_⟩
    · exact (SetParked_IsParked _ _).1
    · simp

/-- C18 as amended, at a concrete input: opening with 30 s left, flags as
constructed (not at the target), poll fails: still busy, park state untouched. -/
theorem TimerHit_failed_poll_remembered_flags_witness :
    (TimerHit (constBus readFault 1) (openingDev 60 30)).DomeMotionSP_s = .IPS_BUSY ∧
    motionDir (TimerHit (constBus readFault 1) (openingDev 60 30)) = some .DOME_CW ∧
    (TimerHit (constBus readFault 1) (openingDev 60 30)).IsParked = false ∧
    (TimerHit (constBus readFault 1) (openingDev 60 30)).ParkS_PARK = .ISS_OFF ∧
    (TimerHit (constBus readFault 1) (openingDev 60 30)).ParkS_UNPARK = .ISS_OFF ∧
    (TimerHit (constBus readFault 1) (openingDev 60 30)).ParkSP_s = .IPS_IDLE ∧
    (TimerHit (constBus readFault 1) (openingDev 60 30)).writes = [] :=
  (TimerHit_failed_poll_remembered_flags (constBus readFault 1) (openingDev 60 30) .DOME_CW
    rfl rfl rfl (by decide)).1 (by decide)

/-- C21 fails as stated: a connected tick of an idle driver puts nothing on the
bus; a stray asserted coil 8256 is still asserted after the tick. -/
theorem TimerHit_idle_no_clear_counterexample :
    idleStrayCoil.connected = true ∧
    idleStrayCoil.DomeMotionSP_s ≠ .IPS_BUSY ∧
    idleStrayCoil.coil8256 = true ∧
    (TimerHit (constBus readBetween 1) idleStrayCoil).writes = [] ∧
    (TimerHit (constBus readBetween 1) idleStrayCoil).nWrite = 0 ∧
    (TimerHit (constBus readBetween 1) idleStrayCoil).coil8256 = true := by
  decide

/-- C21 as amended: when connected and no motion is marked busy, TimerHit only
polls and re-arms itself at 300 s: it puts nothing on the bus and leaves the coils
and the motion property as they are. The defensive clear (0 to coil 8256, then 0
to coil 8257 once the first is acknowledged) is issued when the motion property is
busy while neither direction switch is on, and the motion is then no longer
busy. -/
theorem TimerHit_idle_only_polls (bus : Bus) (s : Dev) (hc : s.connected = true) :
    (s.DomeMotionSP_s ≠ .IPS_BUSY →
      TimerHit bus s = { checkRoofStatus bus s with LoopID := some 300000 } ∧
      (TimerHit bus s).writes = s.writes ∧
      (TimerHit bus s).nWrite = s.nWrite ∧
      (TimerHit bus s).coil8256 = s.coil8256 ∧
      (TimerHit bus s).coil8257 = s.coil8257 ∧
      (TimerHit bus s).DomeMotionSP_s = s.DomeMotionSP_s) ∧
    (s.DomeMotionSP_s = .IPS_BUSY → motionDir s = none →
      newWrites s (TimerHit bus s) = clearWrites bus s.nWrite ∧
      (TimerHit bus s).DomeMotionSP_s ≠ .IPS_BUSY) := by
  constructor
  · intro hb
    rw [TimerHit_idle bus s hc hb]
    exact ⟨rfl, by simp, by simp, by simp, by simp, by simp⟩
  · intro hb hd
    rw [TimerHit_nodir bus s hc hb hd]
    have hw : ({ setDomeState (clearFlags bus (checkRoofStatus bus s)).1 .DOME_IDLE with
        LoopID := some 300000 } : Dev).writes = s.writes ++ clearWrites bus s.nWrite := by
      show (setDomeState (clearFlags bus (checkRoofStatus bus s)).1 .DOME_IDLE).writes = _
      rw [setDomeState_writes, (clearFlags_effect bus _).2.1]
      simp
    exact ⟨newWrites_of_append hw, setDomeState_idle_not_busy _⟩

/-- C21 as amended, at a concrete input: the idle driver with a stray coil, roof
read in between: no write, coil 8256 as before. -/
theorem TimerHit_idle_only_polls_witness :
    (TimerHit (constBus readBetween 1) idleStrayCoil).writes = [] ∧
    (TimerHit (constBus readBetween 1) idleStrayCoil).coil8256 = true :=
  have h := (TimerHit_idle_only_polls (constBus readBetween 1) idleStrayCoil rfl).1
    (by decide)
  ⟨h.2.1, h.2.2.2.1⟩

/-- C22: when the configured timeout is exactly 0, Move, for every direction and
every operation (MOTION_STOP during a busy motion included) and from every state,
only records the timeout, logs the request to set it and answers IPS_ALERT: no
poll is made, nothing is put on the bus, the coils, the motion property, the
direction switches, the countdown, the lights and the sensor flags are as
before. -/
theorem Move_unset_timeout_rejects (bus : Bus) (s : Dev) (dir : DomeDirection)
    (op : DomeMotionCommand) (h0 : s.TimeoutValue = 0) :
    Move bus s dir op
      = (({ s with MotionTimeFrame := s.TimeoutValue } : Dev).log .setTimeout, .IPS_ALERT) ∧
    (Move bus s dir op).2 = .IPS_ALERT ∧
    (Move bus s dir op).1.nRead = s.nRead ∧
    (Move bus s dir op).1.writes = s.writes ∧
    (Move bus s dir op).1.nWrite = s.nWrite ∧
    (Move bus s dir op).1.coil8256 = s.coil8256 ∧
    (Move bus s dir op).1.coil8257 = s.coil8257 ∧
    (Move bus s dir op).1.DomeMotionSP_s = s.DomeMotionSP_s ∧
    (Move bus s dir op).1.DomeMotionS_CW = s.DomeMotionS_CW ∧
    (Move bus s dir op).1.DomeMotionS_CCW = s.DomeMotionS_CCW ∧
    (Move bus s dir op).1.MotionTimeLeft = s.MotionTimeLeft ∧
    senseOf (Move bus s dir op).1 = senseOf s := by
  have he : Move bus s dir op
      = (({ s with MotionTimeFrame := s.TimeoutValue } : Dev).log .setTimeout,
          .IPS_ALERT) := by
    simp [Move, h0]
  rw [he]
  exact ⟨rfl, rfl, rfl, rfl, rfl, rfl, rfl, rfl, rfl, rfl, rfl, rfl⟩

/-- C22 at a concrete input: opening in progress with coil 8256 asserted, timeout
0, MOTION_STOP: IPS_ALERT, no poll, no write, coil still asserted, still busy. -/
theorem Move_unset_timeout_rejects_witness :
    (Move (constBus readBetween 1) (openingDev 0 30) .DOME_CW .MOTION_STOP).2 = .IPS_ALERT ∧
    (Move (constBus readBetween 1) (openingDev 0 30) .DOME_CW .MOTION_STOP).1.nRead = 0 ∧
    (Move (constBus readBetween 1) (openingDev 0 30) .DOME_CW .MOTION_STOP).1.writes = [] ∧
    (Move (constBus readBetween 1) (openingDev 0 30) .DOME_CW .MOTION_STOP).1.coil8256
      = true ∧
    (Move (constBus readBetween 1) (openingDev 0 30) .DOME_CW .MOTION_STOP).1.DomeMotionSP_s
      = .IPS_BUSY :=
  have h := Move_unset_timeout_rejects (constBus readBetween 1) (openingDev 0 30)
    .DOME_CW .MOTION_STOP rfl
  ⟨h.2.1, h.2.2.1, h.2.2.2.1, h.2.2.2.2.2.1, h.2.2.2.2.2.2.2.1⟩

/-- C23: clearFlags returns true exactly when its bus writes are the two
acknowledged clearing writes, 0 to coil 8256 and then 0 to coil 8257. The write to
coil 8256 always comes first; when it is not acknowledged it is the only write
(coil 8257 is never addressed), the result is false and both coils keep their
values. A true result means both coils are clear. -/
theorem clearFlags_true_iff_both_acked (bus : Bus) (s : Dev) :
    ((clearFlags bus s).2 = true ↔
      newWrites s (clearFlags bus s).1 = [⟨8256, 0, 1⟩, ⟨8257, 0, 1⟩]) ∧
    (newWrites s (clearFlags bus s).1).head?
      = some ⟨8256, 0, bus.writeAt s.nWrite 8256 0⟩ ∧
    (bus.writeAt s.nWrite 8256 0 ≠ 1 →
      newWrites s (clearFlags bus s).1 = [⟨8256, 0, bus.writeAt s.nWrite 8256 0⟩] ∧
      (∀ w ∈ newWrites s (clearFlags bus s).1, w.addr ≠ 8257) ∧
      (clearFlags bus s).2 = false ∧
      (clearFlags bus s).1.coil8256 = s.coil8256 ∧
      (clearFlags bus s).1.coil8257 = s.coil8257) ∧
    ((clearFlags bus s).2 = true →
      (clearFlags bus s).1.coil8256 = false ∧ (clearFlags bus s).1.coil8257 = false) := by
  obtain ⟨e1, e2, e3, e4⟩ := clearFlags_effect bus s
  have hn := newWrites_of_append e2
  rw [hn, e1, e3, e4]
  simp only [clearWrites, RELAY_ROOF_OPEN, RELAY_ROOF_CLOSE]
  by_cases h0 : bus.writeAt s.nWrite 8256 0 = 1
  · by_cases h1 : bus.writeAt (s.nWrite + 1) 8257 0 = 1
    · simp [h0, h1]
    · simp [h0, h1]
  · simp [h0]

/-- C23 at a concrete input: no write acknowledged, both coils asserted: one write
only, result false, the close coil untouched. -/
theorem clearFlags_true_iff_both_acked_witness :
    newWrites { initDev 60 with coil8256 := true, coil8257 := true }
      (clearFlags (constBus readBetween (-1))
        { initDev 60 with coil8256 := true, coil8257 := true }).1 = [⟨8256, 0, -1⟩] ∧
    (clearFlags (constBus readBetween (-1))
      { initDev 60 with coil8256 := true, coil8257 := true }).2 = false ∧
    (clearFlags (constBus readBetween (-1))
      { initDev 60 with coil8256 := true, coil8257 := true }).1.coil8257 = true :=
  have h := (clearFlags_true_iff_both_acked (constBus readBetween (-1))
    { initDev 60 with coil8256 := true, coil8257 := true }).2.2.1 (by decide)
  ⟨h.1, h.2.2.1, h.2.2.2.2⟩

end RolLOGO
